import Mathlib

/-!
Verification of the stopmo-xcode ingest-to-archive pipeline.

Shallow embedding of the relevant parts of the source:
* `queue/db.py` (job store: enqueue, crash recovery, leasing, transitions,
  shot assembly upserts) as pure state-passing functions over a `QueueDB`
  record; SQLite's serialized transactions are modelled by sequential
  application of the operations, and the wall clock is an explicit `now`
  parameter.
* `color/arri_logc3.py` and the contrast stage of `color/pipeline.py` over ℝ.
* `worker.py` exposure-offset policy over ℝ.
* `write/dpx_writer.py` over ℚ pixel values and `List Nat` byte strings.
* `utils/shot.py` shot-name/frame-number inference over `List Char`.
-/

namespace StopmoXcode

/-! ## Queue data model (src/stopmo_xcode/queue/db.py) -/

/-- States of the `JobState` enum in `queue/db.py`. -/
inductive JobState
  | detected
  | decoding
  | xform
  | dpx_write
  | done
  | failed
deriving DecidableEq, Repr

/-- `INFLIGHT_STATES` from `queue/db.py`. -/
def INFLIGHT_STATES : List JobState := [.decoding, .xform, .dpx_write]

/-- One row of the `jobs` table.  `detected_at`/`updated_at` timestamps are
modelled as naturals (ISO-8601 strings compare lexicographically in the same
order as the instants they denote). -/
structure Job where
  id : Nat
  source_path : String
  shot_name : String
  frame_number : Nat
  state : JobState
  attempts : Nat
  last_error : Option String
  worker_id : Option String
  output_path : Option String
  detected_at : Nat
  started_at : Option Nat
  finished_at : Option Nat
  updated_at : Nat
deriving DecidableEq, Repr

/-- Assembly states stored in the `shot_assembly.assembly_state` column. -/
inductive AssemblyState
  | pending
  | dirty
  | done
deriving DecidableEq, Repr

/-- One row of the `shot_assembly` table. -/
structure AssemblyRow where
  shot_name : String
  last_frame_done_at : Nat
  assembly_state : AssemblyState
  output_mov_path : Option String
  review_mov_path : Option String
  updated_at : Nat
deriving DecidableEq, Repr

/-- The durable store: `jobs` and `shot_assembly` tables plus the
AUTOINCREMENT counter backing `jobs.id`. -/
structure QueueDB where
  jobs : List Job
  shot_assembly : List AssemblyRow
  nextId : Nat
deriving DecidableEq, Repr

/-- Well-formedness maintained by the schema: `id` is a primary key. -/
def QueueDB.WF (db : QueueDB) : Prop :=
  db.jobs.Pairwise (fun a b => a.id ≠ b.id)

/-- The fresh row inserted by `enqueue_detected`: schema defaults plus the
explicit column values of the INSERT. -/
def newDetectedJob (now : Nat) (id : Nat) (source_path shot_name : String)
    (frame_number : Nat) : Job where
  id := id
  source_path := source_path
  shot_name := shot_name
  frame_number := frame_number
  state := .detected
  attempts := 0
  last_error := none
  worker_id := none
  output_path := none
  detected_at := now
  started_at := none
  finished_at := none
  updated_at := now

def QueueDB.enqueue_detected (db : QueueDB) (now : Nat) (source_path shot_name : String)
    (frame_number : Nat) : Bool × QueueDB :=
  if db.jobs.any (fun j => j.source_path = source_path) then
    (false, db)
  else
    (true,
      { db with
        jobs := db.jobs ++ [newDetectedJob now db.nextId source_path shot_name frame_number]
        nextId := db.nextId + 1 })


/-- Row update performed by `reset_inflight_to_detected` on every in-flight
row: `state = 'detected'`, `worker_id = NULL`,
`last_error = COALESCE(last_error, 'reset after restart')`. -/
def resetRow (now : Nat) (j : Job) : Job :=
  if j.state ∈ INFLIGHT_STATES then
    { j with
      state := .detected
      updated_at := now
      worker_id := none
      last_error := some (j.last_error.getD "reset after restart") }
  else j

/-- `QueueDB.reset_inflight_to_detected`: the startup crash-recovery sweep;
returns the SQLite rowcount (number of in-flight rows updated). -/
def QueueDB.reset_inflight_to_detected (db : QueueDB) (now : Nat) : Nat × QueueDB :=
  ((db.jobs.filter (fun j => j.state ∈ INFLIGHT_STATES)).length,
    { db with jobs := db.jobs.map (resetRow now) })

/-- Strict version of the `ORDER BY detected_at ASC, id ASC` key order. -/
def keyLt (a b : Job) : Prop :=
  a.detected_at < b.detected_at ∨ (a.detected_at = b.detected_at ∧ a.id < b.id)

/-- Reflexive version of the `ORDER BY detected_at ASC, id ASC` key order. -/
def keyLe (a b : Job) : Prop :=
  a.detected_at < b.detected_at ∨ (a.detected_at = b.detected_at ∧ a.id ≤ b.id)

instance : DecidablePred (fun p : Job × Job => keyLt p.1 p.2) := by
  intro p; unfold keyLt; infer_instance

instance (a b : Job) : Decidable (keyLt a b) := by unfold keyLt; infer_instance

instance (a b : Job) : Decidable (keyLe a b) := by unfold keyLe; infer_instance

/-- The row returned by
`SELECT * FROM jobs WHERE state = 'detected' ORDER BY detected_at ASC, id ASC LIMIT 1`:
the key-minimal `detected` row. -/
def selectOldest : List Job → Option Job
  | [] => none
  | j :: rest =>
    if j.state = .detected then
      match selectOldest rest with
      | none => some j
      | some k => if keyLt k j then some k else some j
    else selectOldest rest

/-- The conditional UPDATE inside `lease_next_job` / `lease_job_for_source`:
`SET state='decoding', attempts=attempts+1, worker_id=?,
started_at=COALESCE(started_at, now), updated_at=now
WHERE id = ? AND state = 'detected'`. -/
def leaseUpdate (now : Nat) (worker_id : String) (job_id : Nat) (j : Job) : Job :=
  if j.id = job_id ∧ j.state = .detected then
    { j with
      state := .decoding
      attempts := j.attempts + 1
      worker_id := some worker_id
      started_at := some (j.started_at.getD now)
      updated_at := now }
  else j

/-- `QueueDB.lease_next_job`: one exclusive transaction selecting the oldest
`detected` row, conditionally updating it, and re-reading it; returns `none`
if nothing was selected or the conditional UPDATE changed no row. -/
def QueueDB.lease_next_job (db : QueueDB) (now : Nat) (worker_id : String) :
    Option Job × QueueDB :=
  match selectOldest db.jobs with
  | none => (none, db)
  | some row =>
    let jobs' := db.jobs.map (leaseUpdate now worker_id row.id)
    let updated := (db.jobs.filter (fun j => j.id = row.id ∧ j.state = .detected)).length
    if updated = 0 then (none, db)
    else (jobs'.find? (fun j => j.id = row.id), { db with jobs := jobs' })

/-- `QueueDB.transition`: conditional state advance,
`UPDATE jobs SET state=?, updated_at=?, last_error=? WHERE id=? AND state=?`.
The Python default for the error argument is `None`. -/
def QueueDB.transition (db : QueueDB) (now : Nat) (job_id : Nat)
    (from_state to_state : JobState) (last_error : Option String) : QueueDB :=
  { db with
    jobs := db.jobs.map (fun j =>
      if j.id = job_id ∧ j.state = from_state then
        { j with state := to_state, updated_at := now, last_error := last_error }
      else j) }

/-- The `ON CONFLICT ... DO UPDATE` action of `mark_shot_frame_done`:
refresh `last_frame_done_at`/`updated_at` and demote `'done'` to `'dirty'`,
keeping any other existing state. -/
def touchAssembly (now : Nat) (a : AssemblyRow) : AssemblyRow :=
  { a with
    last_frame_done_at := now
    updated_at := now
    assembly_state :=
      if a.assembly_state = .done then .dirty else a.assembly_state }

/-- The fresh `shot_assembly` row inserted by `mark_shot_frame_done`. -/
def newAssemblyRow (now : Nat) (shot_name : String) : AssemblyRow where
  shot_name := shot_name
  last_frame_done_at := now
  assembly_state := .pending
  output_mov_path := none
  review_mov_path := none
  updated_at := now

def QueueDB.mark_shot_frame_done (db : QueueDB) (now : Nat) (shot_name : String) : QueueDB :=
  if db.shot_assembly.any (fun a => a.shot_name = shot_name) then
    { db with
      shot_assembly := db.shot_assembly.map (fun a =>
        if a.shot_name = shot_name then touchAssembly now a else a) }
  else
    { db with shot_assembly := db.shot_assembly ++ [newAssemblyRow now shot_name] }

/-! ## Order and selection lemmas for the job store -/

theorem keyLe_of_not_keyLt {a b : Job} (h : ¬ keyLt a b) : keyLe b a := by
  unfold keyLt at h
  unfold keyLe
  omega

theorem keyLe_keyLt_asymm {a b : Job} (h1 : keyLe a b) (h2 : keyLt b a) : False := by
  unfold keyLe at h1
  unfold keyLt at h2
  omega

theorem selectOldest_eq_none {js : List Job} :
    selectOldest js = none ↔ ∀ j ∈ js, j.state ≠ .detected := by
  induction js with
  | nil => simp [selectOldest]
  | cons a rest ih =>
    by_cases ha : a.state = .detected
    · constructor
      · intro h
        exfalso
        rw [selectOldest, if_pos ha] at h
        rcases hr : selectOldest rest with _ | k <;> rw [hr] at h
        · exact Option.noConfusion h
        · by_cases hlt : keyLt k a <;> simp [hlt] at h
      · intro h
        exact absurd ha (h a (by simp))
    · rw [selectOldest, if_neg ha]
      constructor
      · intro h j hj
        rcases List.mem_cons.mp hj with rfl | hj
        · exact ha
        · exact ih.mp h j hj
      · intro h
        exact ih.mpr (fun j hj => h j (List.mem_cons_of_mem _ hj))

theorem selectOldest_mem_state : ∀ {js : List Job} {j : Job},
    selectOldest js = some j → j ∈ js ∧ j.state = .detected := by
  intro js
  induction js with
  | nil => intro j h; simp [selectOldest] at h
  | cons a rest ih =>
    intro j h
    by_cases ha : a.state = .detected
    · rw [selectOldest, if_pos ha] at h
      rcases hr : selectOldest rest with _ | k <;> rw [hr] at h
      · obtain rfl := Option.some.inj h
        exact ⟨by simp, ha⟩
      · have h' : (if keyLt k a then some k else some a) = some j := h
        by_cases hlt : keyLt k a
        · rw [if_pos hlt] at h'
          obtain rfl := Option.some.inj h'
          obtain ⟨hm, hs⟩ := ih hr
          exact ⟨List.mem_cons_of_mem _ hm, hs⟩
        · rw [if_neg hlt] at h'
          obtain rfl := Option.some.inj h'
          exact ⟨by simp, ha⟩
    · rw [selectOldest, if_neg ha] at h
      obtain ⟨hm, hs⟩ := ih h
      exact ⟨List.mem_cons_of_mem _ hm, hs⟩

theorem selectOldest_min : ∀ {js : List Job} {j : Job}, selectOldest js = some j →
    ∀ k ∈ js, k.state = .detected → keyLe j k := by
  intro js
  induction js with
  | nil => intro j h; simp [selectOldest] at h
  | cons a rest ih =>
    intro j h k hk hkdet
    by_cases ha : a.state = .detected
    · rw [selectOldest, if_pos ha] at h
      rcases hr : selectOldest rest with _ | m <;> rw [hr] at h
      · obtain rfl := Option.some.inj h
        rcases List.mem_cons.mp hk with rfl | hk
        · unfold keyLe; omega
        · exact absurd hkdet (selectOldest_eq_none.mp hr k hk)
      · have h' : (if keyLt m a then some m else some a) = some j := h
        by_cases hlt : keyLt m a
        · rw [if_pos hlt] at h'
          obtain rfl := Option.some.inj h'
          rcases List.mem_cons.mp hk with rfl | hk
          · unfold keyLt at hlt
            unfold keyLe
            omega
          · exact ih hr k hk hkdet
        · rw [if_neg hlt] at h'
          obtain rfl := Option.some.inj h'
          rcases List.mem_cons.mp hk with rfl | hk
          · unfold keyLe; omega
          · have h1 := keyLe_of_not_keyLt hlt
            have h2 := ih hr k hk hkdet
            unfold keyLe at h1 h2 ⊢
            omega
    · rw [selectOldest, if_neg ha] at h
      rcases List.mem_cons.mp hk with rfl | hk
      · exact absurd hkdet ha
      · exact ih h k hk hkdet

theorem selectOldest_isSome {js : List Job} {j : Job} (hj : j ∈ js)
    (hdet : j.state = .detected) : ∃ k, selectOldest js = some k := by
  rcases h : selectOldest js with _ | k
  · exact absurd hdet (selectOldest_eq_none.mp h j hj)
  · exact ⟨k, rfl⟩

theorem unique_by_id : ∀ {js : List Job}, js.Pairwise (fun a b => a.id ≠ b.id) →
    ∀ a ∈ js, ∀ b ∈ js, a.id = b.id → a = b := by
  intro js
  induction js with
  | nil => intro _; simp
  | cons x rest ih =>
    intro hwf a ha b hb hab
    have hx := List.pairwise_cons.mp hwf
    rcases List.mem_cons.mp ha with ha' | ha'
    · rcases List.mem_cons.mp hb with hb' | hb'
      · rw [ha', hb']
      · rw [ha'] at hab
        exact absurd hab (hx.1 b hb')
    · rcases List.mem_cons.mp hb with hb' | hb'
      · rw [hb'] at hab
        exact absurd hab.symm (hx.1 a ha')
      · exact ih hx.2 a ha' b hb' hab

theorem WF_unique {db : QueueDB} (hwf : db.WF) :
    ∀ a ∈ db.jobs, ∀ b ∈ db.jobs, a.id = b.id → a = b :=
  unique_by_id hwf

theorem find?_map_of_unique {row : Job} (upd : Job → Job) (hid : ∀ j, (upd j).id = j.id) :
    ∀ {js : List Job}, js.Pairwise (fun a b => a.id ≠ b.id) → row ∈ js →
    (js.map upd).find? (fun j => j.id = row.id) = some (upd row) := by
  intro js
  induction js with
  | nil => intro _ h; simp at h
  | cons a rest ih =>
    intro hwf hmem
    have hx := List.pairwise_cons.mp hwf
    rcases List.mem_cons.mp hmem with rfl | hmem
    · simp only [List.map_cons]
      rw [List.find?_cons_of_pos _ (by simp [hid])]
    · have hne : (upd a).id ≠ row.id := by rw [hid]; exact hx.1 row hmem
      simp only [List.map_cons]
      rw [List.find?_cons_of_neg _ (by simpa using hne)]
      exact ih hx.2 hmem

theorem leaseUpdate_id (now : Nat) (w : String) (jid : Nat) (j : Job) :
    (leaseUpdate now w jid j).id = j.id := by
  rw [leaseUpdate]
  split <;> rfl

theorem WF_map {db : QueueDB} (hwf : db.WF) (f : Job → Job)
    (hid : ∀ j, (f j).id = j.id) (sa : List AssemblyRow) (n : Nat) :
    QueueDB.WF { jobs := db.jobs.map f, shot_assembly := sa, nextId := n } := by
  unfold QueueDB.WF at hwf ⊢
  simp only [List.pairwise_map, hid]
  exact hwf

/-- What one `lease_next_job` transaction does when the oldest-detected
SELECT returns a row: in the sequential (serialized-transaction) model the
conditional UPDATE always hits that row, and the re-read returns its updated
image. -/
theorem lease_spec {db : QueueDB} {row : Job} (hwf : db.WF)
    (hrow : selectOldest db.jobs = some row) (now : Nat) (w : String) :
    db.lease_next_job now w =
      (some (leaseUpdate now w row.id row),
        { db with jobs := db.jobs.map (leaseUpdate now w row.id) }) := by
  obtain ⟨hmem, hstate⟩ := selectOldest_mem_state hrow
  have hfilter : row ∈ db.jobs.filter (fun j => j.id = row.id ∧ j.state = .detected) :=
    List.mem_filter.mpr ⟨hmem, by simp [hstate]⟩
  have hlen : (db.jobs.filter (fun j => j.id = row.id ∧ j.state = .detected)).length ≠ 0 := by
    intro h0
    rw [List.length_eq_zero] at h0
    rw [h0] at hfilter
    simp at hfilter
  have hfind := find?_map_of_unique (leaseUpdate now w row.id)
    (leaseUpdate_id now w row.id) hwf hmem
  rw [QueueDB.lease_next_job]
  rw [hrow]
  simp only [if_neg hlen, hfind]

/-! ## Claims C7, C8, C10 -/

/-- Claim C7: for every source path, the first `enqueue_detected` on a store
not containing that path inserts one `detected` job and returns `true`, and
every subsequent call with the same path (whatever shot name, frame number or
time it passes) returns `false` and leaves the store unchanged, so at most
one job with that path ever exists. -/
theorem C7_enqueue_idempotent (db : QueueDB) (now : Nat) (p s : String) (f : Nat)
    (hnew : ∀ j ∈ db.jobs, j.source_path ≠ p) :
    ∃ db1, db.enqueue_detected now p s f = (true, db1) ∧
      (db1.jobs.filter (fun j => j.source_path = p)).length = 1 ∧
      (∃ j ∈ db1.jobs, j.source_path = p ∧ j.state = .detected ∧
        j.shot_name = s ∧ j.frame_number = f) ∧
      (∀ now' s' f', db1.enqueue_detected now' p s' f' = (false, db1)) := by
  have hany : db.jobs.any (fun j => j.source_path = p) = false := by
    rw [List.any_eq_false]
    intro j hj
    simpa using hnew j hj
  rw [QueueDB.enqueue_detected, if_neg (by simp [hany])]
  refine ⟨_, rfl, ?_, ?_, ?_⟩
  · rw [List.filter_append]
    have hfe : db.jobs.filter (fun j => decide (j.source_path = p)) = [] := by
      rw [List.filter_eq_nil_iff]
      intro j hj
      simpa using hnew j hj
    simp [hfe, newDetectedJob]
  · exact ⟨newDetectedJob now db.nextId p s f, by simp, rfl, rfl, rfl, rfl⟩
  · intro now' s' f'
    have hmem : newDetectedJob now db.nextId p s f ∈
        db.jobs ++ [newDetectedJob now db.nextId p s f] := by simp
    rw [QueueDB.enqueue_detected,
      if_pos (List.any_eq_true.mpr ⟨newDetectedJob now db.nextId p s f, hmem, by simp [newDetectedJob]⟩)]

/-- Claim C8: `mark_shot_frame_done` creates a `pending` ShotAssembly row when
none exists for the shot; when one exists it refreshes the last-frame-done
time, demotes `done` to `dirty`, and keeps any other state (in particular
`pending` and `dirty` are preserved, `pending` is never demoted). -/
theorem C8_mark_shot_frame_done (db : QueueDB) (now : Nat) (shot : String) :
    ((∀ a ∈ db.shot_assembly, a.shot_name ≠ shot) →
      (db.mark_shot_frame_done now shot).shot_assembly =
        db.shot_assembly ++ [newAssemblyRow now shot]) ∧
    ((newAssemblyRow now shot).assembly_state = .pending) ∧
    (∀ a ∈ db.shot_assembly, a.shot_name = shot →
      touchAssembly now a ∈ (db.mark_shot_frame_done now shot).shot_assembly) ∧
    (∀ a, a.assembly_state ≠ .done →
      (touchAssembly now a).assembly_state = a.assembly_state ∧
      (touchAssembly now a).last_frame_done_at = now) ∧
    (∀ a, a.assembly_state = .done →
      (touchAssembly now a).assembly_state = .dirty ∧
      (touchAssembly now a).last_frame_done_at = now) ∧
    (db.mark_shot_frame_done now shot).jobs = db.jobs := by
  refine ⟨?_, rfl, ?_, ?_, ?_, ?_⟩
  · intro hnone
    have hany : db.shot_assembly.any (fun a => a.shot_name = shot) = false := by
      rw [List.any_eq_false]
      intro a ha
      simpa using hnone a ha
    rw [QueueDB.mark_shot_frame_done, if_neg (by simp [hany])]
  · intro a ha hshot
    have hany : db.shot_assembly.any (fun a => a.shot_name = shot) = true :=
      List.any_eq_true.mpr ⟨a, ha, by simp [hshot]⟩
    rw [QueueDB.mark_shot_frame_done, if_pos (by simp_all)]
    exact List.mem_map.mpr ⟨a, ha, by rw [if_pos hshot]⟩
  · intro a hnd
    exact ⟨by rw [touchAssembly]; simp [hnd], rfl⟩
  · intro a hd
    exact ⟨by rw [touchAssembly]; simp [hd], rfl⟩
  · rw [QueueDB.mark_shot_frame_done]
    split <;> rfl

/-- Claim C10: a `transition` call with no error argument (Python default
`None`) rewrites the matching row's `last_error` to `NULL`, erasing any
previously recorded text such as the crash-recovery note; only `state`,
`updated_at` and `last_error` change, and a row not in `from_state` (or with
a different id) is left untouched. -/
theorem C10_transition_clears_error (db : QueueDB) (now : Nat) (job_id : Nat)
    (from_state to_state : JobState) :
    List.Forall₂ (fun j j' => j' =
        if j.id = job_id ∧ j.state = from_state then
          { j with state := to_state, updated_at := now, last_error := none }
        else j)
      db.jobs (db.transition now job_id from_state to_state none).jobs ∧
    (∀ j ∈ db.jobs, j.id = job_id → j.state = from_state →
      { j with state := to_state, updated_at := now, last_error := none } ∈
        (db.transition now job_id from_state to_state none).jobs) ∧
    (∀ j ∈ db.jobs, ¬ (j.id = job_id ∧ j.state = from_state) →
      j ∈ (db.transition now job_id from_state to_state none).jobs) ∧
    (db.transition now job_id from_state to_state none).shot_assembly =
      db.shot_assembly ∧
    (db.transition now job_id from_state to_state none).nextId = db.nextId := by
  refine ⟨?_, ?_, ?_, rfl, rfl⟩
  · rw [QueueDB.transition]
    exact List.forall₂_map_right_iff.mpr (List.forall₂_same.mpr (fun j _ => rfl))
  · intro j hj hid hst
    exact List.mem_map.mpr ⟨j, hj, by rw [if_pos ⟨hid, hst⟩]⟩
  · intro j hj hcond
    exact List.mem_map.mpr ⟨j, hj, by rw [if_neg hcond]⟩

/-- Claim C1: on a well-formed store containing at least one `detected` job,
`lease_next_job` returns the oldest `detected` job (minimal by detection
time, then id), transitioned to `decoding`, with its attempt counter
incremented by exactly one and the caller's worker id assigned; when the
store holds exactly one `detected` job the first caller receives it and an
immediately subsequent call receives `none`; two successive calls (the
serialized rendering of two racing callers) never return the same job id. -/
theorem C1_lease_next_job (db : QueueDB) (now : Nat) (w : String) (hwf : db.WF) :
    ((∃ j ∈ db.jobs, j.state = .detected) →
      ∃ row ∈ db.jobs, row.state = .detected ∧
        (∀ k ∈ db.jobs, k.state = .detected → keyLe row k) ∧
        (db.lease_next_job now w).1 = some (leaseUpdate now w row.id row) ∧
        (leaseUpdate now w row.id row).state = .decoding ∧
        (leaseUpdate now w row.id row).attempts = row.attempts + 1 ∧
        (leaseUpdate now w row.id row).worker_id = some w ∧
        (leaseUpdate now w row.id row).id = row.id) ∧
    (∀ j, db.jobs.filter (fun k => k.state = .detected) = [j] →
      (db.lease_next_job now w).1 = some (leaseUpdate now w j.id j) ∧
      (∀ now' w', ((db.lease_next_job now w).2.lease_next_job now' w').1 = none)) ∧
    (∀ now' w' j1 j2, (db.lease_next_job now w).1 = some j1 →
      ((db.lease_next_job now w).2.lease_next_job now' w').1 = some j2 →
      j1.id ≠ j2.id) := by
  refine ⟨?_, ?_, ?_⟩
  · rintro ⟨j, hj, hdet⟩
    obtain ⟨row, hrow⟩ := selectOldest_isSome hj hdet
    obtain ⟨hmem, hstate⟩ := selectOldest_mem_state hrow
    refine ⟨row, hmem, hstate, selectOldest_min hrow, ?_, ?_, ?_, ?_, leaseUpdate_id now w row.id row⟩
    · rw [lease_spec hwf hrow]
    · rw [leaseUpdate, if_pos ⟨rfl, hstate⟩]
    · rw [leaseUpdate, if_pos ⟨rfl, hstate⟩]
    · rw [leaseUpdate, if_pos ⟨rfl, hstate⟩]
  · intro j hfilter
    have hjf : j ∈ db.jobs.filter (fun k => k.state = .detected) := by
      rw [hfilter]
      simp
    have hjmem : j ∈ db.jobs := (List.mem_filter.mp hjf).1
    have hjdet : j.state = .detected := by
      simpa using (List.mem_filter.mp hjf).2
    obtain ⟨row, hrow⟩ := selectOldest_isSome hjmem hjdet
    obtain ⟨hmem, hstate⟩ := selectOldest_mem_state hrow
    have hroweq : row = j := by
      have hrf : row ∈ db.jobs.filter (fun k => k.state = .detected) :=
        List.mem_filter.mpr ⟨hmem, by simp [hstate]⟩
      rw [hfilter] at hrf
      simpa using hrf
    subst hroweq
    constructor
    · rw [lease_spec hwf hrow]
    · intro now' w'
      rw [lease_spec hwf hrow]
      have hnone : selectOldest (db.jobs.map (leaseUpdate now w row.id)) = none := by
        rw [selectOldest_eq_none]
        intro k hk
        obtain ⟨k0, hk0, rfl⟩ := List.mem_map.mp hk
        by_cases hcond : k0.id = row.id ∧ k0.state = .detected
        · rw [leaseUpdate, if_pos hcond]
          intro hcontra
          exact JobState.noConfusion hcontra
        · rw [leaseUpdate, if_neg hcond]
          intro hk0det
          have hk0f : k0 ∈ db.jobs.filter (fun k => k.state = .detected) :=
            List.mem_filter.mpr ⟨hk0, by simp [hk0det]⟩
          rw [hfilter] at hk0f
          have : k0 = row := by simpa using hk0f
          exact hcond ⟨by rw [this], hk0det⟩
      rw [QueueDB.lease_next_job]
      rw [hnone]
  · intro now' w' j1 j2 h1 h2
    rcases hsel : selectOldest db.jobs with _ | row
    · rw [QueueDB.lease_next_job] at h1
      rw [hsel] at h1
      exact Option.noConfusion h1
    · rw [lease_spec hwf hsel] at h1 h2
      obtain rfl := Option.some.inj h1
      set db1 : QueueDB :=
        { db with jobs := db.jobs.map (leaseUpdate now w row.id) } with hdb1
      have hwf1 : db1.WF := WF_map hwf (leaseUpdate now w row.id)
        (leaseUpdate_id now w row.id) db.shot_assembly db.nextId
      rcases hsel2 : selectOldest db1.jobs with _ | row2
      · rw [QueueDB.lease_next_job] at h2
        rw [hsel2] at h2
        exact Option.noConfusion h2
      · rw [lease_spec hwf1 hsel2] at h2
        obtain rfl := Option.some.inj h2
        obtain ⟨hmem2, hstate2⟩ := selectOldest_mem_state hsel2
        intro hid
        rw [leaseUpdate_id, leaseUpdate_id] at hid
        obtain ⟨k0, hk0, hk0eq⟩ := List.mem_map.mp hmem2
        have hk0id : k0.id = row.id := by
          rw [← leaseUpdate_id now w row.id k0, hk0eq, ← hid]
        obtain ⟨hrmem, hrstate⟩ := selectOldest_mem_state hsel
        have hk0row : k0 = row := WF_unique hwf k0 hk0 row hrmem hk0id
        rw [hk0row] at hk0eq
        rw [← hk0eq] at hstate2
        rw [leaseUpdate, if_pos ⟨rfl, hrstate⟩] at hstate2
        exact JobState.noConfusion hstate2

theorem resetRow_id (now : Nat) (j : Job) : (resetRow now j).id = j.id := by
  rw [resetRow]
  split <;> rfl

theorem resetRow_detected_at (now : Nat) (j : Job) :
    (resetRow now j).detected_at = j.detected_at := by
  rw [resetRow]
  split <;> rfl

/-- Claim C2: the crash-recovery sweep moves every in-flight (leased,
non-terminal) job back to `detected`, clears its worker, keeps any recorded
error and otherwise records the note given in the UPDATE's COALESCE; rows in
`detected`, `done` or `failed` are untouched; the returned count is the
number of non-terminal, non-`detected` rows; and if the in-flight job was
the oldest among the jobs that end up `detected`, a subsequent lease by any
worker returns the same job id. -/
theorem C2_reset_inflight (db : QueueDB) (now : Nat) (hwf : db.WF) :
    ((db.reset_inflight_to_detected now).1 =
      (db.jobs.filter
        (fun j => j.state ≠ .detected ∧ j.state ≠ .done ∧ j.state ≠ .failed)).length) ∧
    (∀ j ∈ db.jobs, j.state ∈ INFLIGHT_STATES →
      resetRow now j ∈ (db.reset_inflight_to_detected now).2.jobs ∧
      (resetRow now j).id = j.id ∧
      (resetRow now j).state = .detected ∧
      (resetRow now j).worker_id = none ∧
      (resetRow now j).last_error = some (j.last_error.getD "reset after restart")) ∧
    (∀ j ∈ db.jobs, (j.state = .detected ∨ j.state = .done ∨ j.state = .failed) →
      j ∈ (db.reset_inflight_to_detected now).2.jobs) ∧
    (∀ j ∈ db.jobs, j.state ∈ INFLIGHT_STATES →
      (∀ k ∈ db.jobs, k.id ≠ j.id →
        (k.state = .detected ∨ k.state ∈ INFLIGHT_STATES) → keyLt j k) →
      ∀ now' w', ∃ leased,
        ((db.reset_inflight_to_detected now).2.lease_next_job now' w').1 = some leased ∧
        leased.id = j.id) := by
  refine ⟨?_, ?_, ?_, ?_⟩
  · rw [QueueDB.reset_inflight_to_detected]
    show (List.filter _ db.jobs).length = (List.filter _ db.jobs).length
    congr 1
    apply List.filter_congr
    intro j _
    cases j.state <;> simp [INFLIGHT_STATES]
  · intro j hj hin
    refine ⟨List.mem_map.mpr ⟨j, hj, rfl⟩, resetRow_id now j, ?_, ?_, ?_⟩
    · rw [resetRow, if_pos hin]
    · rw [resetRow, if_pos hin]
    · rw [resetRow, if_pos hin]
  · intro j hj hterm
    have hnin : j.state ∉ INFLIGHT_STATES := by
      rcases hterm with h | h | h <;> rw [h] <;> simp [INFLIGHT_STATES]
    have : resetRow now j = j := by rw [resetRow, if_neg hnin]
    exact List.mem_map.mpr ⟨j, hj, this⟩
  · intro j hj hin hmin now' w'
    have hrjmem : resetRow now j ∈ db.jobs.map (resetRow now) :=
      List.mem_map.mpr ⟨j, hj, rfl⟩
    have hrjdet : (resetRow now j).state = .detected := by rw [resetRow, if_pos hin]
    obtain ⟨row2, hrow2⟩ := selectOldest_isSome hrjmem hrjdet
    obtain ⟨hm2, hs2⟩ := selectOldest_mem_state hrow2
    obtain ⟨k0, hk0, hk0eq⟩ := List.mem_map.mp hm2
    have hrow2rj : row2 = resetRow now j := by
      by_cases hk0j : k0.id = j.id
      · rw [← hk0eq, WF_unique hwf k0 hk0 j hj hk0j]
      · exfalso
        have hk0st : k0.state = .detected ∨ k0.state ∈ INFLIGHT_STATES := by
          by_cases hk0in : k0.state ∈ INFLIGHT_STATES
          · exact Or.inr hk0in
          · left
            have : resetRow now k0 = k0 := by rw [resetRow, if_neg hk0in]
            rw [← this, hk0eq]
            exact hs2
        have hlt := hmin k0 hk0 hk0j hk0st
        have hle := selectOldest_min hrow2 (resetRow now j) hrjmem hrjdet
        apply keyLe_keyLt_asymm hle
        rw [← hk0eq]
        unfold keyLt at hlt ⊢
        rw [resetRow_detected_at, resetRow_id, resetRow_detected_at, resetRow_id]
        exact hlt
    have hwf2 : QueueDB.WF
        { jobs := db.jobs.map (resetRow now),
          shot_assembly := db.shot_assembly, nextId := db.nextId } :=
      WF_map hwf (resetRow now) (resetRow_id now) db.shot_assembly db.nextId
    rw [QueueDB.reset_inflight_to_detected]
    have hfinal := lease_spec hwf2 (by rw [hrow2rj] at hrow2; exact hrow2) now' w'
    refine ⟨leaseUpdate now' w' (resetRow now j).id (resetRow now j), ?_, ?_⟩
    · rw [hfinal]
    · rw [leaseUpdate_id, resetRow_id]

/-! ## Concrete stores for the witnesses -/

def witJobA : Job where
  id := 1
  source_path := "/incoming/SHOT_A_0001.CR3"
  shot_name := "SHOT_A"
  frame_number := 1
  state := .detected
  attempts := 0
  last_error := none
  worker_id := none
  output_path := none
  detected_at := 5
  started_at := none
  finished_at := none
  updated_at := 5

def witDB1 : QueueDB where
  jobs := [witJobA]
  shot_assembly := []
  nextId := 2

def witJobB : Job where
  id := 42
  source_path := "/incoming/SHOT_B_0002.CR3"
  shot_name := "SHOT_B"
  frame_number := 2
  state := .decoding
  attempts := 1
  last_error := none
  worker_id := some "w1"
  output_path := none
  detected_at := 3
  started_at := some 4
  finished_at := none
  updated_at := 4

def witDB2 : QueueDB where
  jobs := [witJobB]
  shot_assembly := []
  nextId := 43

def witDB7 : QueueDB where
  jobs := []
  shot_assembly := []
  nextId := 1

def witRow8 : AssemblyRow where
  shot_name := "SHOT_A"
  last_frame_done_at := 2
  assembly_state := .done
  output_mov_path := some "/out/SHOT_A.mov"
  review_mov_path := none
  updated_at := 2

def witDB8 : QueueDB where
  jobs := []
  shot_assembly := [witRow8]
  nextId := 1

def witJobC : Job where
  id := 7
  source_path := "/incoming/SHOT_C_0003.CR3"
  shot_name := "SHOT_C"
  frame_number := 3
  state := .decoding
  attempts := 2
  last_error := some "reset after restart"
  worker_id := some "w2"
  output_path := none
  detected_at := 1
  started_at := some 2
  finished_at := none
  updated_at := 6

def witDB10 : QueueDB where
  jobs := [witJobC]
  shot_assembly := []
  nextId := 8

theorem C1_lease_next_job_witness :
    (witDB1.WF ∧ witDB1.jobs.filter (fun k => k.state = .detected) = [witJobA]) ∧
    ((witDB1.lease_next_job 7 "w1").1 = some (leaseUpdate 7 "w1" witJobA.id witJobA) ∧
      ∀ now' w', ((witDB1.lease_next_job 7 "w1").2.lease_next_job now' w').1 = none) :=
  ⟨⟨by unfold QueueDB.WF witDB1; simp, by decide⟩,
    (C1_lease_next_job witDB1 7 "w1"
      (by unfold QueueDB.WF witDB1; simp)).2.1 witJobA (by decide)⟩

theorem C2_reset_inflight_witness :
    (witDB2.WF ∧ witJobB ∈ witDB2.jobs ∧ witJobB.state ∈ INFLIGHT_STATES ∧
      (∀ k ∈ witDB2.jobs, k.id ≠ witJobB.id →
        (k.state = .detected ∨ k.state ∈ INFLIGHT_STATES) → keyLt witJobB k)) ∧
    ∃ leased,
      ((witDB2.reset_inflight_to_detected 9).2.lease_next_job 10 "w9").1 = some leased ∧
      leased.id = witJobB.id :=
  ⟨⟨by unfold QueueDB.WF witDB2; simp, by decide, by decide, by decide⟩,
    (C2_reset_inflight witDB2 9
      (by unfold QueueDB.WF witDB2; simp)).2.2.2 witJobB (by decide) (by decide)
      (by decide) 10 "w9"⟩

theorem C7_enqueue_idempotent_witness :
    (∀ j ∈ witDB7.jobs, j.source_path ≠ "/incoming/NEW_0001.CR3") ∧
    ∃ db1, witDB7.enqueue_detected 3 "/incoming/NEW_0001.CR3" "NEW" 1 = (true, db1) ∧
      (db1.jobs.filter (fun j => j.source_path = "/incoming/NEW_0001.CR3")).length = 1 ∧
      (∃ j ∈ db1.jobs, j.source_path = "/incoming/NEW_0001.CR3" ∧ j.state = .detected ∧
        j.shot_name = "NEW" ∧ j.frame_number = 1) ∧
      (∀ now' s' f', db1.enqueue_detected now' "/incoming/NEW_0001.CR3" s' f' = (false, db1)) :=
  ⟨by decide,
    C7_enqueue_idempotent witDB7 3 "/incoming/NEW_0001.CR3" "NEW" 1 (by decide)⟩

theorem C8_mark_shot_frame_done_witness :
    (witRow8 ∈ witDB8.shot_assembly ∧ witRow8.shot_name = "SHOT_A" ∧
      witRow8.assembly_state = .done) ∧
    (touchAssembly 9 witRow8 ∈ (witDB8.mark_shot_frame_done 9 "SHOT_A").shot_assembly ∧
      (touchAssembly 9 witRow8).assembly_state = .dirty ∧
      (touchAssembly 9 witRow8).last_frame_done_at = 9) :=
  ⟨⟨by decide, by decide, by decide⟩,
    (C8_mark_shot_frame_done witDB8 9 "SHOT_A").2.2.1 witRow8 (by decide) (by decide),
    (C8_mark_shot_frame_done witDB8 9 "SHOT_A").2.2.2.2.1 witRow8 (by decide)⟩

theorem C10_transition_clears_error_witness :
    (witJobC ∈ witDB10.jobs ∧ witJobC.id = 7 ∧ witJobC.state = .decoding ∧
      witJobC.last_error = some "reset after restart") ∧
    { witJobC with state := JobState.xform, updated_at := 11, last_error := none } ∈
      (witDB10.transition 11 7 .decoding .xform none).jobs :=
  ⟨⟨by decide, by decide, by decide, by decide⟩,
    (C10_transition_clears_error witDB10 11 7 .decoding .xform).2.1 witJobC
      (by decide) (by decide) (by decide)⟩

/-! ## Shot-name and frame-number inference (src/stopmo_xcode/utils/shot.py)

Strings are modelled as `List Char`; the two regexes of the source,
`_FRAME_RE = (\d+)(?!.*\d)` (the last maximal digit run) and
`_STEM_SHOT_RE = ^(.*?)(?:[_\-.]?(\d+))?$` (lazy: the shortest prefix whose
remainder is an optional single separator followed by digits to the end, or
empty), are modelled by direct executable scans with the same semantics.
Digits are ASCII digits, which covers every path the tests and spec use. -/

/-- The character class `[_\-.]` of `_STEM_SHOT_RE`. -/
def SEP_CHARS : List Char := ['_', '-', '.']

/-- The characters removed by the source's `prefix.rstrip("_-. ")`. -/
def STRIP_CHARS : List Char := ['_', '-', '.', ' ']

/-- `_GENERIC_PARENT_NAMES` from `utils/shot.py`. -/
def GENERIC_PARENT_NAMES : List (List Char) :=
  ["incoming".toList, "source".toList, "sources".toList, "capture".toList,
    "captures".toList, "frames".toList]

def allDigits (cs : List Char) : Bool := cs.all (fun c => c.isDigit)

/-- Does a remainder match `(?:[_\-.]?(\d+))?$` — i.e. is it empty, a
nonempty digit run, or one separator followed by a nonempty digit run? -/
def restMatches : List Char → Bool
  | [] => true
  | c :: rest =>
    if c ∈ SEP_CHARS then !rest.isEmpty && allDigits rest
    else allDigits (c :: rest)

/-- Group 1 of the lazy `_STEM_SHOT_RE` match: the shortest prefix whose
remainder matches the optional separator-plus-digits tail. -/
def stemShotSplit : List Char → List Char
  | [] => []
  | c :: rest =>
    if restMatches (c :: rest) then []
    else c :: stemShotSplit rest

/-- Python's `str.rstrip(chars)`. -/
def rstripChars (strip : List Char) (cs : List Char) : List Char :=
  (cs.reverse.dropWhile (fun c => c ∈ strip)).reverse

/-- Python's `str.strip()` (whitespace at both ends). -/
def stripWS (cs : List Char) : List Char :=
  ((cs.dropWhile (fun c => c.isWhitespace)).reverse.dropWhile
    (fun c => c.isWhitespace)).reverse

/-- `pathlib.PurePath.name`: the last path component. -/
def pathName (p : List Char) : List Char :=
  (p.reverse.takeWhile (fun c => c ≠ '/')).reverse

/-- The name of `pathlib.PurePath.parent`: the component before the last. -/
def pathParentName (p : List Char) : List Char :=
  (((p.reverse.dropWhile (fun c => c ≠ '/')).drop 1).takeWhile
    (fun c => c ≠ '/')).reverse

/-- `pathlib.PurePath.stem`: the name with its suffix removed; the suffix is
`name[i:]` for `i = name.rfind('.')` when `0 < i < len(name) - 1`. -/
def pyStem (name : List Char) : List Char :=
  let k := (name.reverse.takeWhile (fun c => c ≠ '.')).length
  if k = name.length then name
  else
    let i := name.length - 1 - k
    if 0 < i ∧ i < name.length - 1 then name.take i else name

/-- The match of `_FRAME_RE = (\d+)(?!.*\d)`: the last maximal digit run. -/
def stemLastDigitRun (stem : List Char) : List Char :=
  ((stem.reverse.dropWhile (fun c => !c.isDigit)).takeWhile
    (fun c => c.isDigit)).reverse

/-- `int()` on a digit string. -/
def natOfDigits (ds : List Char) : Nat :=
  ds.foldl (fun acc c => 10 * acc + (c.toNat - 48)) 0

/-- The frame number derived from a stem: value of the `_FRAME_RE` match,
else 0. -/
def frameOfStem (stem : List Char) : Nat :=
  let run := stemLastDigitRun stem
  if run = [] then 0 else natOfDigits run

/-- The shot-name candidate derived from a stem:
`_STEM_SHOT_RE` group 1 with trailing `"_-. "` characters stripped. -/
def shotOfStem (stem : List Char) : List Char :=
  rstripChars STRIP_CHARS (stemShotSplit stem)

/-- `infer_frame_number` from `utils/shot.py`. -/
def infer_frame_number (path : List Char) : Nat :=
  frameOfStem (pyStem (pathName path))

/-- `infer_shot_name` from `utils/shot.py`, with no regex override
(`shot_regex = None`). -/
def infer_shot_name (path : List Char) : List Char :=
  let stripped := shotOfStem (pyStem (pathName path))
  if stripped ≠ [] then stripped
  else
    let parent := stripWS (pathParentName path)
    if parent ≠ [] ∧ (parent.map Char.toLower) ∉ GENERIC_PARENT_NAMES then parent
    else "default_shot".toList

/-! ## Lemmas about the string scans of `utils/shot.py` -/

theorem dropWhile_append_left {f : Char → Bool} :
    ∀ {xs : List Char} (ys : List Char), (∀ c ∈ xs, f c = true) →
      (xs ++ ys).dropWhile f = ys.dropWhile f := by
  intro xs
  induction xs with
  | nil => intro ys _; rfl
  | cons a t ih =>
    intro ys hall
    rw [List.cons_append, List.dropWhile_cons, if_pos (hall a (by simp))]
    exact ih ys (fun c hc => hall c (by simp [hc]))

theorem takeWhile_append_left {g : Char → Bool} :
    ∀ {xs ys : List Char}, (∀ c ∈ xs, g c = true) →
      (∀ d, ys.head? = some d → g d = false) →
      (xs ++ ys).takeWhile g = xs := by
  intro xs
  induction xs with
  | nil =>
    intro ys _ hys
    cases ys with
    | nil => rfl
    | cons d t =>
      rw [List.nil_append, List.takeWhile_cons, if_neg (by simp [hys d rfl])]
  | cons a t ih =>
    intro ys hall hys
    rw [List.cons_append, List.takeWhile_cons, if_pos (hall a (by simp))]
    rw [ih (fun c hc => hall c (by simp [hc])) hys]

theorem sep_not_digit {c : Char} (h : c ∈ SEP_CHARS) : c.isDigit = false := by
  simp only [SEP_CHARS, List.mem_cons, List.not_mem_nil, or_false] at h
  rcases h with rfl | rfl | rfl <;> decide

/-- Where `_FRAME_RE` matches: for a stem decomposed as
`prefix ++ digit-run ++ digit-free-tail` with the run maximal, the match is
the run. -/
theorem stemLastDigitRun_spec (p r q : List Char) (hr : r ≠ [])
    (hrd : ∀ c ∈ r, c.isDigit = true) (hq : ∀ c ∈ q, c.isDigit = false)
    (hp : ∀ c, p.getLast? = some c → c.isDigit = false) :
    stemLastDigitRun (p ++ r ++ q) = r := by
  have h1 : (p ++ r ++ q).reverse = q.reverse ++ (r.reverse ++ p.reverse) := by
    rw [List.reverse_append, List.reverse_append]
  rw [stemLastDigitRun, h1]
  rw [dropWhile_append_left _ (fun c hc => by simp [hq c (List.mem_reverse.mp hc)])]
  have h2 : (r.reverse ++ p.reverse).dropWhile (fun c => !c.isDigit) =
      r.reverse ++ p.reverse := by
    cases hrev : r.reverse with
    | nil => exact absurd (by simpa using congrArg List.reverse hrev) hr
    | cons d t =>
      have hd : d.isDigit = true := hrd d (List.mem_reverse.mp (by rw [hrev]; simp))
      rw [List.cons_append, List.dropWhile_cons, if_neg (by simp [hd])]
  rw [h2, takeWhile_append_left
    (fun c hc => hrd c (List.mem_reverse.mp hc))
    (fun d hd' => hp d (by rwa [List.head?_reverse] at hd'))]
  exact List.reverse_reverse r

theorem stemShotSplit_all_digits {r : List Char} (hr : r ≠ [])
    (hrd : ∀ c ∈ r, c.isDigit = true) : stemShotSplit r = [] := by
  cases r with
  | nil => exact absurd rfl hr
  | cons c t =>
    have hc : c.isDigit = true := hrd c (by simp)
    have hcs : c ∉ SEP_CHARS := fun hmem => by
      rw [sep_not_digit hmem] at hc
      exact Bool.noConfusion hc
    rw [stemShotSplit, if_pos]
    rw [restMatches, if_neg hcs]
    rw [allDigits, List.all_eq_true]
    intro x hx
    simp [hrd x hx]

/-- Where the lazy `_STEM_SHOT_RE` splits: on `prefix ++ digit-run` group 1
is the prefix, minus at most one trailing separator. -/
theorem stemShotSplit_spec : ∀ (p : List Char) {r : List Char}, r ≠ [] →
    (∀ c ∈ r, c.isDigit = true) →
    (∀ c, p.getLast? = some c → c.isDigit = false) →
    stemShotSplit (p ++ r) = p ∨
      ∃ q c, p = q ++ [c] ∧ c ∈ SEP_CHARS ∧ stemShotSplit (p ++ r) = q := by
  intro p
  induction p with
  | nil =>
    intro r hr hrd _
    exact Or.inl (stemShotSplit_all_digits hr hrd)
  | cons a p' ih =>
    intro r hr hrd hp
    cases hp' : p' with
    | nil =>
      subst hp'
      by_cases ha : a ∈ SEP_CHARS
      · refine Or.inr ⟨[], a, rfl, ha, ?_⟩
        rw [List.cons_append, List.nil_append, stemShotSplit, if_pos]
        rw [restMatches, if_pos ha]
        cases r with
        | nil => exact absurd rfl hr
        | cons c t =>
          simp only [List.isEmpty_cons, Bool.not_false, Bool.true_and]
          rw [allDigits, List.all_eq_true]
          intro x hx
          simp [hrd x hx]
      · left
        have hadig : a.isDigit = false := hp a rfl
        have hrm : restMatches (a :: r) = false := by
          rw [restMatches, if_neg ha, allDigits, List.all_eq_false]
          exact ⟨a, by simp, by simp [hadig]⟩
        rw [List.cons_append, List.nil_append, stemShotSplit, if_neg (by simp [hrm])]
        rw [stemShotSplit_all_digits hr hrd]
    | cons b p'' =>
      subst hp'
      have hlast : ∀ c, (b :: p'').getLast? = some c → c.isDigit = false := by
        intro c hc
        exact hp c (by rwa [List.getLast?_cons_cons])
      set c0 := (b :: p'').getLast (by simp) with hc0
      have hc0mem : c0 ∈ b :: p'' := List.getLast_mem _
      have hc0dig : c0.isDigit = false := hlast c0 (List.getLast?_eq_getLast _ _)
      have hc0mem' : c0 ∈ b :: (p'' ++ r) := by
        rcases List.mem_cons.mp hc0mem with h | h
        · exact h ▸ List.mem_cons_self _ _
        · exact List.mem_cons_of_mem _ (List.mem_append_left _ h)
      have htail : allDigits (b :: (p'' ++ r)) = false := by
        rw [allDigits, List.all_eq_false]
        exact ⟨c0, hc0mem', by simp [hc0dig]⟩
      have hrm : restMatches (a :: b :: (p'' ++ r)) = false := by
        rw [restMatches]
        by_cases ha : a ∈ SEP_CHARS
        · rw [if_pos ha, htail]
          simp
        · rw [if_neg ha, allDigits, List.all_eq_false]
          exact ⟨c0, List.mem_cons_of_mem _ hc0mem', by simp [hc0dig]⟩
      rw [List.cons_append, stemShotSplit, if_neg (by simp [hrm])]
      rcases ih hr hrd hlast with h | ⟨q, c, hpq, hcs, he⟩
      · exact Or.inl (by rw [h])
      · exact Or.inr ⟨a :: q, c, by rw [hpq, List.cons_append], hcs, by rw [he]⟩

theorem rstrip_append_mem {S : List Char} {q : List Char} {c : Char} (hc : c ∈ S) :
    rstripChars S (q ++ [c]) = rstripChars S q := by
  rw [rstripChars, rstripChars, List.reverse_append]
  simp only [List.reverse_cons, List.reverse_nil, List.nil_append, List.cons_append,
    List.nil_append]
  rw [List.dropWhile_cons, if_pos (by simp [hc])]

theorem sep_subset_strip {c : Char} (h : c ∈ SEP_CHARS) : c ∈ STRIP_CHARS := by
  simp only [SEP_CHARS, List.mem_cons, List.not_mem_nil, or_false] at h
  rcases h with rfl | rfl | rfl <;> decide

theorem stemShotSplit_no_digits : ∀ {s : List Char},
    (∀ c ∈ s, c.isDigit = false) → stemShotSplit s = s := by
  intro s
  induction s with
  | nil => intro _; rfl
  | cons a t ih =>
    intro h
    have hrm : restMatches (a :: t) = false := by
      rw [restMatches]
      by_cases ha : a ∈ SEP_CHARS
      · rw [if_pos ha]
        cases t with
        | nil => rfl
        | cons b u =>
          have : allDigits (b :: u) = false := by
            rw [allDigits, List.all_eq_false]
            exact ⟨b, by simp, by simp [h b (by simp)]⟩
          rw [this]
          simp
      · rw [if_neg ha, allDigits, List.all_eq_false]
        exact ⟨a, by simp, by simp [h a (by simp)]⟩
    rw [stemShotSplit, if_neg (by simp [hrm])]
    rw [ih (fun c hc => h c (by simp [hc]))]

theorem stemLastDigitRun_no_digits {s : List Char}
    (h : ∀ c ∈ s, c.isDigit = false) : stemLastDigitRun s = [] := by
  rw [stemLastDigitRun]
  have hdrop : s.reverse.dropWhile (fun c => !c.isDigit) = [] := by
    rw [List.dropWhile_eq_nil_iff]
    intro c hc
    simp [h c (List.mem_reverse.mp hc)]
  rw [hdrop]
  rfl

/-- Claim C9: `/incoming/SHOT_A_0012.CR3` yields shot `SHOT_A` and frame 12;
`/incoming/HEROFRAME.CR3` yields shot `HEROFRAME` and frame 0; in general
(digits read as ASCII digits) the frame number is the value of the last
digit run of the stem — in particular of a trailing run — and 0 when the
stem has no digits, while the shot-name candidate is the stem prefix before
the trailing digit run with separators stripped, and the whole (stripped)
stem when the stem has no digits. -/
theorem C9_shot_name_inference :
    (infer_shot_name ("/incoming/SHOT_A_0012.CR3".toList) = "SHOT_A".toList ∧
      infer_frame_number ("/incoming/SHOT_A_0012.CR3".toList) = 12) ∧
    (infer_shot_name ("/incoming/HEROFRAME.CR3".toList) = "HEROFRAME".toList ∧
      infer_frame_number ("/incoming/HEROFRAME.CR3".toList) = 0) ∧
    (∀ p r q : List Char, r ≠ [] → (∀ c ∈ r, c.isDigit = true) →
      (∀ c ∈ q, c.isDigit = false) → (∀ c, p.getLast? = some c → c.isDigit = false) →
      frameOfStem (p ++ r ++ q) = natOfDigits r) ∧
    (∀ p r : List Char, r ≠ [] → (∀ c ∈ r, c.isDigit = true) →
      (∀ c, p.getLast? = some c → c.isDigit = false) →
      shotOfStem (p ++ r) = rstripChars STRIP_CHARS p) ∧
    (∀ s : List Char, (∀ c ∈ s, c.isDigit = false) →
      frameOfStem s = 0 ∧ shotOfStem s = rstripChars STRIP_CHARS s) := by
  refine ⟨⟨by decide, by decide⟩, ⟨by decide, by decide⟩, ?_, ?_, ?_⟩
  · intro p r q hr hrd hq hp
    rw [frameOfStem]
    rw [stemLastDigitRun_spec p r q hr hrd hq hp]
    rw [if_neg hr]
  · intro p r hr hrd hp
    rw [shotOfStem]
    rcases stemShotSplit_spec p hr hrd hp with h | ⟨q, c, hpq, hcs, he⟩
    · rw [h]
    · rw [he, hpq, rstrip_append_mem (sep_subset_strip hcs)]
  · intro s h
    refine ⟨?_, ?_⟩
    · rw [frameOfStem, stemLastDigitRun_no_digits h]
      rfl
    · rw [shotOfStem, stemShotSplit_no_digits h]

theorem C9_shot_name_inference_witness :
    (("34".toList ≠ []) ∧ (∀ c ∈ "34".toList, c.isDigit = true) ∧
      (∀ c ∈ "_vx".toList, c.isDigit = false) ∧
      (∀ c, "A_".toList.getLast? = some c → c.isDigit = false)) ∧
    frameOfStem ("A_".toList ++ "34".toList ++ "_vx".toList) = natOfDigits "34".toList ∧
    shotOfStem ("A_".toList ++ "34".toList) = rstripChars STRIP_CHARS "A_".toList :=
  ⟨⟨by decide, by decide, by decide, by decide⟩,
    C9_shot_name_inference.2.2.1 ("A_".toList) ("34".toList) ("_vx".toList)
      (by decide) (by decide) (by decide) (by decide),
    C9_shot_name_inference.2.2.2.1 ("A_".toList) ("34".toList)
      (by decide) (by decide) (by decide)⟩

/-! ## Exposure-offset policy (src/stopmo_xcode/worker.py)

Floats are modelled as ℝ; `math.log2` is `Real.logb 2`, and option-typed
metadata mirrors the `float | None` signatures of the source. -/

noncomputable def iso_compensation_stops (iso : Option ℝ) (target_ei : ℤ) : Option ℝ :=
  match iso with
  | none => none
  | some v =>
    if v ≤ 0 ∨ target_ei ≤ 0 then none
    else some (Real.logb 2 ((target_ei : ℝ) / v))

noncomputable def shutter_compensation_stops
    (frame_shutter_s target_shutter_s : Option ℝ) : Option ℝ :=
  match frame_shutter_s with
  | none => none
  | some fs =>
    if fs ≤ 0 then none
    else
      match target_shutter_s with
      | none => none
      | some ts => if ts ≤ 0 then none else some (Real.logb 2 (ts / fs))

noncomputable def aperture_compensation_stops
    (frame_aperture_f target_aperture_f : Option ℝ) : Option ℝ :=
  match frame_aperture_f with
  | none => none
  | some fa =>
    if fa ≤ 0 then none
    else
      match target_aperture_f with
      | none => none
      | some ta => if ta ≤ 0 then none else some (2 * Real.logb 2 (fa / ta))

/-- `_effective_exposure_offset_stops` from `worker.py`: the imperative
accumulation of `out` and `missing` is modelled by chained pair updates in
the source's order (iso, then shutter, then aperture). -/
noncomputable def effective_exposure_offset_stops (base_offset_stops : ℝ)
    (auto_exposure_from_iso : Bool) (target_ei : ℤ) (frame_iso : Option ℝ)
    (auto_exposure_from_shutter : Bool) (target_shutter_s frame_shutter_s : Option ℝ)
    (auto_exposure_from_aperture : Bool) (target_aperture_f frame_aperture_f : Option ℝ)
    (locked_shot_offset_stops : Option ℝ) : ℝ × List String :=
  if auto_exposure_from_iso || auto_exposure_from_shutter || auto_exposure_from_aperture then
    let s0 : ℝ × List String := (base_offset_stops, [])
    let s1 :=
      if auto_exposure_from_iso then
        match iso_compensation_stops frame_iso target_ei with
        | none => (s0.1, s0.2 ++ ["iso"])
        | some v => (s0.1 + v, s0.2)
      else s0
    let s2 :=
      if auto_exposure_from_shutter then
        match shutter_compensation_stops frame_shutter_s target_shutter_s with
        | none => (s1.1, s1.2 ++ ["shutter_s"])
        | some v => (s1.1 + v, s1.2)
      else s1
    let s3 :=
      if auto_exposure_from_aperture then
        match aperture_compensation_stops frame_aperture_f target_aperture_f with
        | none => (s2.1, s2.2 ++ ["aperture_f"])
        | some v => (s2.1 + v, s2.2)
      else s2
    s3
  else
    match locked_shot_offset_stops with
    | some l => (l, [])
    | none => (base_offset_stops, [])

/-- Closed form of the auto-exposure branch: starting from the base offset,
each enabled mode with a valid compensation adds its term, each enabled mode
with a missing/invalid term contributes nothing and reports its name, in
source order. -/
theorem eff_auto_closed_form (base : ℝ) (ai : Bool) (ei : ℤ) (iso : Option ℝ)
    (ash : Bool) (ts fs : Option ℝ) (aap : Bool) (ta fa : Option ℝ) (L : Option ℝ)
    (h : (ai || ash || aap) = true) :
    effective_exposure_offset_stops base ai ei iso ash ts fs aap ta fa L =
      (base + (if ai then (iso_compensation_stops iso ei).getD 0 else 0)
            + (if ash then (shutter_compensation_stops fs ts).getD 0 else 0)
            + (if aap then (aperture_compensation_stops fa ta).getD 0 else 0),
        (if ai = true ∧ iso_compensation_stops iso ei = none then ["iso"] else []) ++
        (if ash = true ∧ shutter_compensation_stops fs ts = none then ["shutter_s"] else []) ++
        (if aap = true ∧ aperture_compensation_stops fa ta = none then ["aperture_f"] else [])) := by
  rw [effective_exposure_offset_stops.eq_def, if_pos h]
  rcases hi : iso_compensation_stops iso ei with _ | vi <;>
    rcases hsh : shutter_compensation_stops fs ts with _ | vs <;>
    rcases hap : aperture_compensation_stops fa ta with _ | va <;>
    cases ai <;> cases ash <;> cases aap <;>
    simp_all

/-- Claim C5: with no auto mode the locked shot offset wins when present;
ISO 200 at target EI 800 with only auto-from-ISO adds exactly 2 stops to the
base; with any auto mode enabled the locked offset is never consulted; each
enabled mode contributes its term exactly when its metadata is present and
valid, else contributes nothing and is named in the missing list; and the
iso term is missing precisely when the ISO is absent/non-positive or the
target EI is non-positive. -/
theorem C5_effective_exposure_offset :
    (∀ (base : ℝ) (ei : ℤ) iso ts fs ta fa (L : ℝ),
      effective_exposure_offset_stops base false ei iso false ts fs false ta fa (some L) =
        (L, [])) ∧
    (∀ (base : ℝ) ts fs ta fa L,
      effective_exposure_offset_stops base true 800 (some 200) false ts fs false ta fa L =
        (base + 2, [])) ∧
    (∀ (base : ℝ) ai (ei : ℤ) iso ash ts fs aap ta fa L1 L2,
      (ai || ash || aap) = true →
      effective_exposure_offset_stops base ai ei iso ash ts fs aap ta fa L1 =
        effective_exposure_offset_stops base ai ei iso ash ts fs aap ta fa L2) ∧
    (∀ (base : ℝ) ai (ei : ℤ) iso ash ts fs aap ta fa L,
      (ai || ash || aap) = true →
      effective_exposure_offset_stops base ai ei iso ash ts fs aap ta fa L =
        (base + (if ai then (iso_compensation_stops iso ei).getD 0 else 0)
              + (if ash then (shutter_compensation_stops fs ts).getD 0 else 0)
              + (if aap then (aperture_compensation_stops fa ta).getD 0 else 0),
          (if ai = true ∧ iso_compensation_stops iso ei = none then ["iso"] else []) ++
          (if ash = true ∧ shutter_compensation_stops fs ts = none then ["shutter_s"] else []) ++
          (if aap = true ∧ aperture_compensation_stops fa ta = none then ["aperture_f"] else []))) ∧
    (∀ (iso : Option ℝ) (ei : ℤ), iso_compensation_stops iso ei = none ↔
      iso = none ∨ (∃ v, iso = some v ∧ v ≤ 0) ∨ ei ≤ 0) := by
  refine ⟨?_, ?_, ?_, ?_, ?_⟩
  · intro base ei iso ts fs ta fa L
    rw [effective_exposure_offset_stops]
    rfl
  · intro base ts fs ta fa L
    have hcomp : iso_compensation_stops (some 200) 800 = some 2 := by
      rw [iso_compensation_stops]
      rw [if_neg (by norm_num)]
      have h4 : ((800 : ℤ) : ℝ) / (200 : ℝ) = (2 : ℝ) ^ (2 : ℕ) := by norm_num
      rw [h4, Real.logb_pow, Real.logb_self_eq_one (by norm_num)]
      norm_num
    rw [eff_auto_closed_form base true 800 (some 200) false ts fs false ta fa L (by decide)]
    rw [hcomp]
    simp
  · intro base ai ei iso ash ts fs aap ta fa L1 L2 h
    rw [eff_auto_closed_form base ai ei iso ash ts fs aap ta fa L1 h,
      eff_auto_closed_form base ai ei iso ash ts fs aap ta fa L2 h]
  · intro base ai ei iso ash ts fs aap ta fa L h
    exact eff_auto_closed_form base ai ei iso ash ts fs aap ta fa L h
  · intro iso ei
    cases iso with
    | none => simp [iso_compensation_stops]
    | some v =>
      rw [iso_compensation_stops]
      by_cases hc : v ≤ 0 ∨ ei ≤ 0
      · rw [if_pos hc]
        simp only [true_iff]
        rcases hc with h | h
        · exact Or.inr (Or.inl ⟨v, rfl, h⟩)
        · exact Or.inr (Or.inr h)
      · rw [if_neg hc]
        push_neg at hc
        constructor
        · intro hcontra
          exact Option.noConfusion hcontra
        · intro hrhs
          rcases hrhs with h | ⟨w, hw, hw0⟩ | h
          · exact Option.noConfusion h
          · obtain rfl := Option.some.inj hw
            exact absurd hw0 (not_le.mpr hc.1)
          · exact absurd h (not_le.mpr hc.2)

theorem C5_effective_exposure_offset_witness :
    ((true || false || false) = true) ∧
    effective_exposure_offset_stops 0 true 800 none false none none false none none (some 3) =
      (0 + (if true then (iso_compensation_stops none 800).getD 0 else 0)
         + (if false then (shutter_compensation_stops none none).getD 0 else 0)
         + (if false then (aperture_compensation_stops none none).getD 0 else 0),
        (if true = true ∧ iso_compensation_stops none 800 = none then ["iso"] else []) ++
        (if false = true ∧ shutter_compensation_stops none none = none then ["shutter_s"] else []) ++
        (if false = true ∧ aperture_compensation_stops none none = none
          then ["aperture_f"] else [])) :=
  ⟨by decide,
    C5_effective_exposure_offset.2.2.2.1 0 true 800 none false none none false none none
      (some 3) (by decide)⟩

/-! ## Contrast stage of ColorPipeline.transform (src/stopmo_xcode/color/pipeline.py)

Lines 70-72 of `pipeline.py`: when `contrast != 1.0` the log-encoded signal
is pivoted, scaled, and clipped to [0,1]; when `contrast == 1.0` the stage
is skipped.  `np.clip(x, 0, 1) = min (max x 0) 1`. -/

noncomputable def contrastStage (contrast pivotLogc logc : ℝ) : ℝ :=
  if contrast ≠ 1 then
    min (max (pivotLogc + (logc - pivotLogc) * contrast) 0) 1
  else logc

/-- At the pivot the stage is the identity for every contrast factor, as
long as the encoded pivot lies in [0,1] (the clamp then fixes it). -/
theorem contrastStage_pivot (k p : ℝ) (h0 : 0 ≤ p) (h1 : p ≤ 1) :
    contrastStage k p p = p := by
  rw [contrastStage]
  split
  · rw [show p + (p - p) * k = p by ring, max_eq_left h0, min_eq_left h1]
  · rfl

/-- For in-range inputs the skipped (`contrast = 1`) branch coincides with
the clip formula, so the stage is everywhere `clip(p + (y-p)k)`. -/
theorem contrastStage_eq_clip (k p y : ℝ) (h0 : 0 ≤ y) (h1 : y ≤ 1) :
    contrastStage k p y = min (max (p + (y - p) * k) 0) 1 := by
  rw [contrastStage]
  split
  · rfl
  · rename_i h
    have hk : k = 1 := by
      by_contra hne
      exact h hne
    rw [hk, show p + (y - p) * 1 = y by ring, max_eq_left h0, min_eq_left h1]

/-- Deviation of the stage output from the pivot, `p ≤ y` side. -/
theorem contrastStage_dev_ge (p y k : ℝ) (hp1 : p ≤ 1) (hy : p ≤ y) (hy1 : y ≤ 1)
    (hk : 0 ≤ k) (hp0 : 0 ≤ p) :
    contrastStage k p y - p = min ((y - p) * k) (1 - p) ∧
      0 ≤ contrastStage k p y - p := by
  rw [contrastStage_eq_clip k p y (by linarith) hy1]
  have hδk : 0 ≤ (y - p) * k := mul_nonneg (by linarith) hk
  rw [max_eq_left (by linarith)]
  refine ⟨?_, ?_⟩
  · rcases le_total (p + (y - p) * k) 1 with h | h
    · rw [min_eq_left h, min_eq_left (by linarith)]
      ring
    · rw [min_eq_right h, min_eq_right (by linarith)]
  · have : p ≤ min (p + (y - p) * k) 1 := le_min (by linarith) hp1
    linarith

/-- Deviation of the stage output from the pivot, `y ≤ p` side. -/
theorem contrastStage_dev_le (p y k : ℝ) (hp0 : 0 ≤ p) (hy : y ≤ p) (hy0 : 0 ≤ y)
    (hk : 0 ≤ k) (hp1 : p ≤ 1) :
    p - contrastStage k p y = min ((p - y) * k) p ∧
      contrastStage k p y - p ≤ 0 := by
  rw [contrastStage_eq_clip k p y hy0 (by linarith)]
  have hδk : 0 ≤ (p - y) * k := mul_nonneg (by linarith) hk
  have hle1 : p + (y - p) * k ≤ 1 := by nlinarith
  refine ⟨?_, ?_⟩
  · rcases le_total (p + (y - p) * k) 0 with h | h
    · rw [max_eq_right h, min_eq_left (by norm_num : (0:ℝ) ≤ 1),
        min_eq_right (by nlinarith : p ≤ (p - y) * k)]
      ring
    · rw [max_eq_left h, min_eq_left (by linarith), min_eq_left (by nlinarith)]
      ring
  · have hmle : min (max (p + (y - p) * k) 0) 1 ≤ p := by
      rcases le_total (p + (y - p) * k) 0 with h | h
      · rw [max_eq_right h]
        exact le_trans (min_le_left _ _) hp0
      · rw [max_eq_left h]
        exact le_trans (min_le_left _ _) (by nlinarith)
    linarith

/-- Claim C4 as stated is false: once the larger-contrast output clips at
the [0,1] boundary, raising the contrast no longer increases the deviation
from the pivot output.  At pivot 1/2, input 9/10, contrasts 2 < 3 both
outputs clamp to 1 and the deviations are equal. -/
theorem C4_contrast_counterexample :
    ((9 : ℝ)/10 ≠ (1 : ℝ)/2) ∧ ((2 : ℝ) < 3) ∧
    ¬ (|contrastStage 2 (1/2) (9/10) - contrastStage 2 (1/2) (1/2)| <
        |contrastStage 3 (1/2) (9/10) - contrastStage 3 (1/2) (1/2)|) ∧
    |contrastStage 2 (1/2) (9/10) - contrastStage 2 (1/2) (1/2)| =
      |contrastStage 3 (1/2) (9/10) - contrastStage 3 (1/2) (1/2)| := by
  have e2 : contrastStage 2 (1/2) (9/10) = 1 := by
    rw [contrastStage, if_pos (by norm_num)]
    rw [show (1:ℝ)/2 + ((9:ℝ)/10 - 1/2) * 2 = 13/10 by norm_num]
    rw [max_eq_left (by norm_num), min_eq_right (by norm_num)]
  have e3 : contrastStage 3 (1/2) (9/10) = 1 := by
    rw [contrastStage, if_pos (by norm_num)]
    rw [show (1:ℝ)/2 + ((9:ℝ)/10 - 1/2) * 3 = 17/10 by norm_num]
    rw [max_eq_left (by norm_num), min_eq_right (by norm_num)]
  have ep2 : contrastStage 2 (1/2) (1/2) = 1/2 :=
    contrastStage_pivot 2 (1/2) (by norm_num) (by norm_num)
  have ep3 : contrastStage 3 (1/2) (1/2) = 1/2 :=
    contrastStage_pivot 3 (1/2) (by norm_num) (by norm_num)
  rw [e2, e3, ep2, ep3]
  norm_num

/-- Claim C4, amended for the clamp: with the encoded pivot and the input in
[0,1], the pivot input is a fixed point of the stage for every contrast
factor; the deviation |output − pivot output| is non-decreasing in the
contrast factor, and strictly increasing as long as the smaller-contrast
pre-clamp value lies strictly inside (0,1). -/
theorem C4_contrast_amended :
    (∀ (k p : ℝ), 0 ≤ p → p ≤ 1 → contrastStage k p p = p) ∧
    (∀ (p y k1 k2 : ℝ), 0 ≤ p → p ≤ 1 → 0 ≤ y → y ≤ 1 → 0 ≤ k1 → k1 ≤ k2 →
      |contrastStage k1 p y - contrastStage k1 p p| ≤
        |contrastStage k2 p y - contrastStage k2 p p|) ∧
    (∀ (p y k1 k2 : ℝ), 0 ≤ p → p ≤ 1 → 0 ≤ y → y ≤ 1 → y ≠ p → 0 ≤ k1 → k1 < k2 →
      0 < p + (y - p) * k1 → p + (y - p) * k1 < 1 →
      |contrastStage k1 p y - contrastStage k1 p p| <
        |contrastStage k2 p y - contrastStage k2 p p|) := by
  refine ⟨contrastStage_pivot, ?_, ?_⟩
  · intro p y k1 k2 hp0 hp1 hy0 hy1 hk1 hk12
    rw [contrastStage_pivot k1 p hp0 hp1, contrastStage_pivot k2 p hp0 hp1]
    have hk2 : 0 ≤ k2 := le_trans hk1 hk12
    rcases le_total p y with hy | hy
    · obtain ⟨ha1, hb1⟩ := contrastStage_dev_ge p y k1 hp1 hy hy1 hk1 hp0
      obtain ⟨ha2, hb2⟩ := contrastStage_dev_ge p y k2 hp1 hy hy1 hk2 hp0
      rw [abs_of_nonneg hb1, abs_of_nonneg hb2, ha1, ha2]
      exact min_le_min (by nlinarith) le_rfl
    · obtain ⟨ha1, hb1⟩ := contrastStage_dev_le p y k1 hp0 hy hy0 hk1 hp1
      obtain ⟨ha2, hb2⟩ := contrastStage_dev_le p y k2 hp0 hy hy0 hk2 hp1
      rw [abs_of_nonpos hb1, abs_of_nonpos hb2, neg_sub, neg_sub, ha1, ha2]
      exact min_le_min (by nlinarith) le_rfl
  · intro p y k1 k2 hp0 hp1 hy0 hy1 hne hk1 hk12 hlo hhi
    rw [contrastStage_pivot k1 p hp0 hp1, contrastStage_pivot k2 p hp0 hp1]
    have hk2 : 0 ≤ k2 := le_trans hk1 (le_of_lt hk12)
    rcases lt_or_gt_of_ne hne with hy | hy
    · obtain ⟨ha1, hb1⟩ := contrastStage_dev_le p y k1 hp0 (le_of_lt hy) hy0 hk1 hp1
      obtain ⟨ha2, hb2⟩ := contrastStage_dev_le p y k2 hp0 (le_of_lt hy) hy0 hk2 hp1
      rw [abs_of_nonpos hb1, abs_of_nonpos hb2, neg_sub, neg_sub, ha1, ha2]
      have hd1 : (p - y) * k1 < p := by nlinarith
      rw [min_eq_left (le_of_lt hd1)]
      exact lt_min (by nlinarith) hd1
    · obtain ⟨ha1, hb1⟩ := contrastStage_dev_ge p y k1 hp1 (le_of_lt hy) hy1 hk1 hp0
      obtain ⟨ha2, hb2⟩ := contrastStage_dev_ge p y k2 hp1 (le_of_lt hy) hy1 hk2 hp0
      rw [abs_of_nonneg hb1, abs_of_nonneg hb2, ha1, ha2]
      have hd1 : (y - p) * k1 < 1 - p := by nlinarith
      rw [min_eq_left (le_of_lt hd1)]
      exact lt_min (by nlinarith) hd1

theorem C4_contrast_amended_witness :
    ((0 : ℝ) ≤ 1/2 ∧ (1 : ℝ)/2 ≤ 1 ∧ (0 : ℝ) ≤ 3/4 ∧ (3 : ℝ)/4 ≤ 1 ∧
      (3 : ℝ)/4 ≠ 1/2 ∧ (0 : ℝ) ≤ 1 ∧ (1 : ℝ) < 2 ∧
      (0 : ℝ) < 1/2 + (3/4 - 1/2) * 1 ∧ (1 : ℝ)/2 + (3/4 - 1/2) * 1 < 1) ∧
    |contrastStage 1 (1/2) (3/4) - contrastStage 1 (1/2) (1/2)| <
      |contrastStage 2 (1/2) (3/4) - contrastStage 2 (1/2) (1/2)| :=
  ⟨⟨by norm_num, by norm_num, by norm_num, by norm_num, by norm_num, by norm_num,
    by norm_num, by norm_num, by norm_num⟩,
    C4_contrast_amended.2.2 (1/2) (3/4) 1 2 (by norm_num) (by norm_num) (by norm_num)
      (by norm_num) (by norm_num) (by norm_num) (by norm_num) (by norm_num) (by norm_num)⟩

/-! ## ARRI LogC3 EI800 curve (src/stopmo_xcode/color/arri_logc3.py)

The float32 numpy arithmetic of the source is modelled over ℝ; `np.log10`
is `Real.logb 10` and `np.power(10.0, ·)` is the real power `(10:ℝ) ^ ·`.
The EI800 constants are the decimal literals of `_LOGC3_EI800`. -/

def logc3_cut : ℝ := 0.010591
def logc3_a : ℝ := 5.555556
def logc3_b : ℝ := 0.052272
def logc3_c : ℝ := 0.247190
def logc3_d : ℝ := 0.385537
def logc3_e : ℝ := 5.367655
def logc3_f : ℝ := 0.092809

/-- `encode_logc3_ei800`: clip negatives, then the piecewise log/linear
encode selected by `x > cut`. -/
noncomputable def encode_logc3_ei800 (x : ℝ) : ℝ :=
  if logc3_cut < max x 0 then
    logc3_c * Real.logb 10 (logc3_a * max x 0 + logc3_b) + logc3_d
  else logc3_e * max x 0 + logc3_f

/-- `decode_logc3_ei800`: the piecewise inverse selected by `y > cut_y` with
`cut_y = e·cut + f`, clipped to nonnegative output. -/
noncomputable def decode_logc3_ei800 (y : ℝ) : ℝ :=
  max
    (if logc3_e * logc3_cut + logc3_f < y then
      ((10:ℝ) ^ ((y - logc3_d) / logc3_c) - logc3_b) / logc3_a
    else (y - logc3_f) / logc3_e)
    0

/-! Rational bounds on `10 ^ (p/q)` reduced to natural-number power facts. -/

theorem rpow_ratio_pow {P Q : ℕ} (hQ : 0 < Q) :
    ((10:ℝ) ^ (-(P:ℝ)/(Q:ℝ))) ^ Q = ((10:ℝ) ^ (P:ℕ))⁻¹ := by
  have hQ0 : (Q:ℝ) ≠ 0 := Nat.cast_ne_zero.mpr (Nat.pos_iff_ne_zero.mp hQ)
  rw [← Real.rpow_natCast ((10:ℝ) ^ (-(P:ℝ)/(Q:ℝ))) Q]
  rw [← Real.rpow_mul (by norm_num : (0:ℝ) ≤ 10)]
  rw [div_mul_cancel₀ _ hQ0]
  rw [Real.rpow_neg (by norm_num : (0:ℝ) ≤ 10)]
  rw [Real.rpow_natCast]

theorem rpow_neg_ratio_le {m k P Q : ℕ} (hQ : 0 < Q)
    (h : 10 ^ (k * Q) ≤ m ^ Q * 10 ^ P) :
    (10:ℝ) ^ (-(P:ℝ)/(Q:ℝ)) ≤ (m:ℝ) / 10 ^ k := by
  have hm : 0 < m := by
    rcases Nat.eq_zero_or_pos m with rfl | hm
    · rw [Nat.zero_pow hQ, Nat.zero_mul] at h
      exact absurd h (Nat.pos_pow_of_pos _ (by norm_num)).not_le
    · exact hm
  apply le_of_pow_le_pow_left₀ (Nat.pos_iff_ne_zero.mp hQ) (by positivity)
  rw [rpow_ratio_pow hQ, div_pow, ← pow_mul]
  rw [inv_eq_one_div, div_le_div_iff₀ (by positivity) (by positivity), one_mul]
  calc (10:ℝ) ^ (k * Q) = ((10 ^ (k * Q) : ℕ) : ℝ) := by push_cast; ring
    _ ≤ ((m ^ Q * 10 ^ P : ℕ) : ℝ) := Nat.cast_le.mpr h
    _ = (m:ℝ) ^ Q * 10 ^ P := by push_cast; ring

theorem le_rpow_neg_ratio {m k P Q : ℕ} (hQ : 0 < Q)
    (h : m ^ Q * 10 ^ P ≤ 10 ^ (k * Q)) :
    (m:ℝ) / 10 ^ k ≤ (10:ℝ) ^ (-(P:ℝ)/(Q:ℝ)) := by
  apply le_of_pow_le_pow_left₀ (Nat.pos_iff_ne_zero.mp hQ)
    (Real.rpow_nonneg (by norm_num) _)
  rw [rpow_ratio_pow hQ, div_pow, ← pow_mul]
  rw [inv_eq_one_div, div_le_div_iff₀ (by positivity) (by positivity), one_mul]
  calc (m:ℝ) ^ Q * 10 ^ P = ((m ^ Q * 10 ^ P : ℕ) : ℝ) := by push_cast; ring
    _ ≤ ((10 ^ (k * Q) : ℕ) : ℝ) := Nat.cast_le.mpr h
    _ = (10:ℝ) ^ (k * Q) := by push_cast; ring

theorem lt_rpow_neg_ratio {m k P Q : ℕ} (hQ : 0 < Q)
    (h : m ^ Q * 10 ^ P < 10 ^ (k * Q)) :
    (m:ℝ) / 10 ^ k < (10:ℝ) ^ (-(P:ℝ)/(Q:ℝ)) := by
  apply lt_of_pow_lt_pow_left₀ Q (Real.rpow_nonneg (by norm_num) _)
  rw [rpow_ratio_pow hQ, div_pow, ← pow_mul]
  rw [inv_eq_one_div, div_lt_div_iff₀ (by positivity) (by positivity), one_mul]
  calc (m:ℝ) ^ Q * 10 ^ P = ((m ^ Q * 10 ^ P : ℕ) : ℝ) := by push_cast; ring
    _ < ((10 ^ (k * Q) : ℕ) : ℝ) := Nat.cast_lt.mpr h
    _ = (10:ℝ) ^ (k * Q) := by push_cast; ring

set_option exponentiation.threshold 10000000 in
/-- log10(0.111110893596) ≥ −477123/500000: as naturals. -/
theorem logc3_nat_low : (10:ℕ) ^ 5522877 ≤ 111110893596 ^ 500000 := by decide

set_option exponentiation.threshold 10000000 in
/-- log10(0.1111109) < −954243/1000000 (the cut-discontinuity witness):
as naturals. -/
theorem logc3_nat_ce : (1111109:ℕ) ^ 1000000 < 10 ^ 6045757 := by decide

set_option exponentiation.threshold 10000000 in
/-- 10^(−477/500) ≤ 0.1115: as naturals. -/
theorem logc3_nat_up : (10:ℕ) ^ 1523 ≤ 1115 ^ 500 := by decide

theorem logc3_nat_low' :
    (10:ℕ) ^ (12 * 500000) ≤ 111110893596 ^ 500000 * 10 ^ 477123 :=
  calc (10:ℕ) ^ (12 * 500000) = 10 ^ (5522877 + 477123) := by
        rw [show (12 * 500000 : ℕ) = 5522877 + 477123 by norm_num]
    _ = 10 ^ 5522877 * 10 ^ 477123 := pow_add 10 _ _
    _ ≤ 111110893596 ^ 500000 * 10 ^ 477123 :=
        mul_le_mul_of_nonneg_right logc3_nat_low (Nat.zero_le _)

theorem logc3_nat_ce' :
    (1111109:ℕ) ^ 1000000 * 10 ^ 954243 < 10 ^ (7 * 1000000) :=
  calc (1111109:ℕ) ^ 1000000 * 10 ^ 954243 < 10 ^ 6045757 * 10 ^ 954243 :=
        mul_lt_mul_of_pos_right logc3_nat_ce (by positivity)
    _ = 10 ^ (7 * 1000000) := by rw [← pow_add]

theorem logc3_nat_up' : (10:ℕ) ^ (4 * 500) ≤ 1115 ^ 500 * 10 ^ 477 :=
  calc (10:ℕ) ^ (4 * 500) = 10 ^ (1523 + 477) := by
        rw [show (4 * 500 : ℕ) = 1523 + 477 by norm_num]
    _ = 10 ^ 1523 * 10 ^ 477 := pow_add 10 _ _
    _ ≤ 1115 ^ 500 * 10 ^ 477 :=
        mul_le_mul_of_nonneg_right logc3_nat_up (Nat.zero_le _)

theorem encode_low {x : ℝ} (h0 : 0 ≤ x) (hc : x ≤ logc3_cut) :
    encode_logc3_ei800 x = logc3_e * x + logc3_f := by
  rw [encode_logc3_ei800, max_eq_left h0, if_neg (not_lt.mpr hc)]

theorem encode_high {x : ℝ} (h0 : 0 ≤ x) (hc : logc3_cut < x) :
    encode_logc3_ei800 x =
      logc3_c * Real.logb 10 (logc3_a * x + logc3_b) + logc3_d := by
  rw [encode_logc3_ei800, max_eq_left h0, if_pos hc]

theorem logc3_arg_pos {x : ℝ} (h0 : 0 ≤ x) : 0 < logc3_a * x + logc3_b := by
  have h1 : 0 ≤ logc3_a * x := mul_nonneg (by norm_num [logc3_a]) h0
  have h2 : (0:ℝ) < logc3_b := by norm_num [logc3_b]
  linarith

/-- Lower bound on the log argument's base-10 log for any `x ≥ cut`,
obtained from the natural-number power fact `logc3_nat_low`. -/
theorem logb_arg_lower {x : ℝ} (hc : logc3_cut ≤ x) :
    (-(477123:ℝ))/500000 ≤ Real.logb 10 (logc3_a * x + logc3_b) := by
  have hz : (111110893596:ℝ)/10^12 ≤ logc3_a * x + logc3_b := by
    have h1 : logc3_a * logc3_cut ≤ logc3_a * x :=
      mul_le_mul_of_nonneg_left hc (by norm_num [logc3_a])
    have h2 : logc3_a * logc3_cut + logc3_b = (111110893596:ℝ)/10^12 := by
      norm_num [logc3_a, logc3_b, logc3_cut]
    linarith
  calc (-(477123:ℝ))/500000 ≤ Real.logb 10 ((111110893596:ℝ)/10^12) := by
        rw [Real.le_logb_iff_rpow_le (by norm_num) (by norm_num)]
        have hb := @rpow_neg_ratio_le 111110893596 12 477123 500000
          (by norm_num) logc3_nat_low'
        push_cast at hb
        exact hb
    _ ≤ Real.logb 10 (logc3_a * x + logc3_b) :=
        Real.logb_le_logb_of_le (by norm_num) (by norm_num) hz

/-- Exact round trip on the linear branch. -/
theorem decode_encode_low {x : ℝ} (h0 : 0 ≤ x) (hc : x ≤ logc3_cut) :
    decode_logc3_ei800 (encode_logc3_ei800 x) = x := by
  rw [encode_low h0 hc, decode_logc3_ei800]
  have hle : logc3_e * x + logc3_f ≤ logc3_e * logc3_cut + logc3_f := by
    have := mul_le_mul_of_nonneg_left hc (by norm_num [logc3_e] : (0:ℝ) ≤ logc3_e)
    linarith
  rw [if_neg (not_lt.mpr hle), add_sub_cancel_right,
    mul_div_cancel_left₀ x (by norm_num [logc3_e] : logc3_e ≠ 0)]
  exact max_eq_left h0

/-- Exact round trip on the log branch whenever the decoder also selects
the log branch. -/
theorem decode_encode_high {x : ℝ} (hc : logc3_cut < x)
    (hy : logc3_e * logc3_cut + logc3_f < encode_logc3_ei800 x) :
    decode_logc3_ei800 (encode_logc3_ei800 x) = x := by
  have h0 : (0:ℝ) ≤ x := le_trans (by norm_num [logc3_cut]) (le_of_lt hc)
  rw [encode_high h0 hc] at hy ⊢
  rw [decode_logc3_ei800, if_pos hy, add_sub_cancel_right,
    mul_div_cancel_left₀ _ (by norm_num [logc3_c] : logc3_c ≠ 0),
    Real.rpow_logb (by norm_num) (by norm_num) (logc3_arg_pos h0),
    add_sub_cancel_right,
    mul_div_cancel_left₀ x (by norm_num [logc3_a] : logc3_a ≠ 0)]
  exact max_eq_left h0

/-- Round trip within tolerance in the tiny region just above the cut where
the encoder takes the log branch but the value still falls at or below the
decoder's cut: both values are then squeezed within 2·10⁻⁴ of each other. -/
theorem decode_encode_near_cut {x : ℝ} (hc : logc3_cut < x)
    (hy : encode_logc3_ei800 x ≤ logc3_e * logc3_cut + logc3_f) :
    |decode_logc3_ei800 (encode_logc3_ei800 x) - x| ≤ 2/10^4 := by
  have h0 : (0:ℝ) ≤ x := le_trans (by norm_num [logc3_cut]) (le_of_lt hc)
  rw [encode_high h0 hc] at hy ⊢
  set L := Real.logb 10 (logc3_a * x + logc3_b) with hLdef
  rw [decode_logc3_ei800, if_neg (not_lt.mpr hy)]
  have hcpos : (0:ℝ) < logc3_c := by norm_num [logc3_c]
  have hepos : (0:ℝ) < logc3_e := by norm_num [logc3_e]
  have hapos : (0:ℝ) < logc3_a := by norm_num [logc3_a]
  have hLlo : (-(477123:ℝ))/500000 ≤ L := logb_arg_lower (le_of_lt hc)
  have hLub : L ≤ (-(477:ℝ))/500 := by
    have h2 : L ≤ (logc3_e * logc3_cut + logc3_f - logc3_d)/logc3_c := by
      rw [le_div_iff₀ hcpos, mul_comm]
      linarith
    calc L ≤ (logc3_e * logc3_cut + logc3_f - logc3_d)/logc3_c := h2
      _ ≤ (-(477:ℝ))/500 := by
        norm_num [logc3_c, logc3_d, logc3_e, logc3_f, logc3_cut]
  have hzub : logc3_a * x + logc3_b ≤ (1115:ℝ)/10^4 := by
    have h3 := (Real.logb_le_iff_le_rpow (by norm_num)
      (logc3_arg_pos h0)).mp hLub
    have hb := @rpow_neg_ratio_le 1115 4 477 500 (by norm_num) logc3_nat_up'
    push_cast at hb
    exact le_trans h3 hb
  have hxub : x ≤ ((1115:ℝ)/10^4 - logc3_b)/logc3_a := by
    rw [le_div_iff₀ hapos, mul_comm]
    linarith
  have hwlo : (logc3_c * ((-(477123:ℝ))/500000) + logc3_d - logc3_f)/logc3_e ≤
      (logc3_c * L + logc3_d - logc3_f)/logc3_e := by
    have hmul := mul_le_mul_of_nonneg_left hLlo (le_of_lt hcpos)
    apply (div_le_div_iff_of_pos_right hepos).mpr
    linarith
  have hwpos : 0 < (logc3_c * L + logc3_d - logc3_f)/logc3_e := by
    refine lt_of_lt_of_le ?_ hwlo
    norm_num [logc3_c, logc3_d, logc3_e, logc3_f]
  rw [max_eq_left (le_of_lt hwpos)]
  have hwle : (logc3_c * L + logc3_d - logc3_f)/logc3_e ≤ logc3_cut := by
    rw [div_le_iff₀ hepos, mul_comm logc3_cut logc3_e]
    linarith
  have habs : (logc3_c * L + logc3_d - logc3_f)/logc3_e - x ≤ 0 := by
    linarith
  rw [abs_of_nonpos habs]
  have hfinal : ((1115:ℝ)/10^4 - logc3_b)/logc3_a -
      (logc3_c * ((-(477123:ℝ))/500000) + logc3_d - logc3_f)/logc3_e ≤ 2/10^4 := by
    norm_num [logc3_a, logc3_b, logc3_c, logc3_d, logc3_e, logc3_f]
  linarith

theorem encode_mono_low {x1 x2 : ℝ} (h0 : 0 ≤ x1) (h12 : x1 ≤ x2)
    (h2 : x2 ≤ logc3_cut) :
    encode_logc3_ei800 x1 ≤ encode_logc3_ei800 x2 := by
  rw [encode_low h0 (le_trans h12 h2), encode_low (le_trans h0 h12) h2]
  have := mul_le_mul_of_nonneg_left h12 (by norm_num [logc3_e] : (0:ℝ) ≤ logc3_e)
  linarith

theorem encode_mono_high {x1 x2 : ℝ} (h1 : logc3_cut < x1) (h12 : x1 ≤ x2) :
    encode_logc3_ei800 x1 ≤ encode_logc3_ei800 x2 := by
  have h01 : (0:ℝ) ≤ x1 := le_trans (by norm_num [logc3_cut]) (le_of_lt h1)
  rw [encode_high h01 h1, encode_high (le_trans h01 h12) (lt_of_lt_of_le h1 h12)]
  have hz1 : 0 < logc3_a * x1 + logc3_b := logc3_arg_pos h01
  have harg : logc3_a * x1 + logc3_b ≤ logc3_a * x2 + logc3_b := by
    have := mul_le_mul_of_nonneg_left h12 (by norm_num [logc3_a] : (0:ℝ) ≤ logc3_a)
    linarith
  have hlog := Real.logb_le_logb_of_le (by norm_num : (1:ℝ) < 10) hz1 harg
  have := mul_le_mul_of_nonneg_left hlog (by norm_num [logc3_c] : (0:ℝ) ≤ logc3_c)
  linarith

theorem encode_cross_cut {x1 x2 : ℝ} (h0 : 0 ≤ x1) (h1 : x1 ≤ logc3_cut)
    (h2 : logc3_cut < x2) :
    encode_logc3_ei800 x1 ≤ encode_logc3_ei800 x2 + 1/10^6 := by
  have h02 : (0:ℝ) ≤ x2 := le_trans (by norm_num [logc3_cut]) (le_of_lt h2)
  rw [encode_low h0 h1, encode_high h02 h2]
  have hLlo := logb_arg_lower (le_of_lt h2)
  have h3 : logc3_e * x1 ≤ logc3_e * logc3_cut :=
    mul_le_mul_of_nonneg_left h1 (by norm_num [logc3_e])
  have h4 : logc3_e * logc3_cut + logc3_f ≤
      logc3_c * ((-(477123:ℝ))/500000) + logc3_d + 1/10^6 := by
    norm_num [logc3_c, logc3_d, logc3_e, logc3_f, logc3_cut]
  have h5 := mul_le_mul_of_nonneg_left hLlo
    (by norm_num [logc3_c] : (0:ℝ) ≤ logc3_c)
  linarith

/-- Claim C3, amended at the branch cut: the encode→decode round trip holds
within the claimed 2·10⁻⁴ tolerance on all of [0, 8] (it is exact outside a
width-5·10⁻⁸ sliver above the cut); `encode` is non-decreasing on each
branch ([0, cut] and (cut, 8]); but across the cut the two pieces meet only
approximately, so global monotonicity holds with a 10⁻⁶ slack rather than
exactly. -/
theorem C3_logc3_amended :
    (∀ x : ℝ, 0 ≤ x → x ≤ 8 →
      |decode_logc3_ei800 (encode_logc3_ei800 x) - x| ≤ 2/10^4) ∧
    (∀ x1 x2 : ℝ, 0 ≤ x1 → x1 ≤ x2 → x2 ≤ logc3_cut →
      encode_logc3_ei800 x1 ≤ encode_logc3_ei800 x2) ∧
    (∀ x1 x2 : ℝ, logc3_cut < x1 → x1 ≤ x2 →
      encode_logc3_ei800 x1 ≤ encode_logc3_ei800 x2) ∧
    (∀ x1 x2 : ℝ, 0 ≤ x1 → x1 ≤ x2 → x2 ≤ 8 →
      encode_logc3_ei800 x1 ≤ encode_logc3_ei800 x2 + 1/10^6) := by
  refine ⟨?_, fun x1 x2 a b c => encode_mono_low a b c,
    fun x1 x2 a b => encode_mono_high a b, ?_⟩
  · intro x h0 _
    by_cases hc : x ≤ logc3_cut
    · rw [decode_encode_low h0 hc]
      simp only [sub_self, abs_zero]
      norm_num
    · push_neg at hc
      by_cases hy : logc3_e * logc3_cut + logc3_f < encode_logc3_ei800 x
      · rw [decode_encode_high hc hy]
        simp only [sub_self, abs_zero]
        norm_num
      · push_neg at hy
        exact decode_encode_near_cut hc hy
  · intro x1 x2 h0 h12 _
    by_cases h1 : x1 ≤ logc3_cut
    · by_cases h2 : x2 ≤ logc3_cut
      · have := encode_mono_low h0 h12 h2
        linarith
      · push_neg at h2
        exact encode_cross_cut h0 h1 h2
    · push_neg at h1
      have := encode_mono_high h1 h12
      linarith

theorem C3_logc3_amended_witness :
    ((0:ℝ) ≤ 0 ∧ (0:ℝ) ≤ 8) ∧
    |decode_logc3_ei800 (encode_logc3_ei800 0) - 0| ≤ 2/10^4 :=
  ⟨⟨by norm_num, by norm_num⟩, C3_logc3_amended.1 0 (by norm_num) (by norm_num)⟩

/-- Claim C3's monotonicity clause is false as stated: the two pieces of the
EI800 curve do not meet exactly at the cut — the log branch sits about
2.5·10⁻⁷ below the linear branch there — so `encode` strictly decreases
from `x₁ = cut = 0.010591` to `x₂ = 588389/55555560 ≈ cut + 10⁻⁹`, although
`0 ≤ x₁ ≤ x₂ ≤ 8`. -/
theorem C3_monotonic_counterexample :
    (0:ℝ) ≤ 10591/10^6 ∧ (10591:ℝ)/10^6 ≤ 588389/55555560 ∧
    (588389:ℝ)/55555560 ≤ 8 ∧
    encode_logc3_ei800 (588389/55555560) < encode_logc3_ei800 (10591/10^6) := by
  refine ⟨by norm_num, by norm_num, by norm_num, ?_⟩
  have h1 : encode_logc3_ei800 ((10591:ℝ)/10^6) =
      logc3_e * ((10591:ℝ)/10^6) + logc3_f :=
    encode_low (by norm_num) (by norm_num [logc3_cut])
  have h2 : encode_logc3_ei800 ((588389:ℝ)/55555560) =
      logc3_c * Real.logb 10 (logc3_a * ((588389:ℝ)/55555560) + logc3_b) +
        logc3_d :=
    encode_high (by norm_num) (by norm_num [logc3_cut])
  have harg : logc3_a * ((588389:ℝ)/55555560) + logc3_b = (1111109:ℝ)/10^7 := by
    norm_num [logc3_a, logc3_b]
  have hlb : Real.logb 10 ((1111109:ℝ)/10^7) < (-(954243:ℝ))/10^6 := by
    rw [Real.logb_lt_iff_lt_rpow (by norm_num) (by norm_num)]
    have hb := @lt_rpow_neg_ratio 1111109 7 954243 1000000 (by norm_num) logc3_nat_ce'
    push_cast at hb
    convert hb using 3
    norm_num
  have hfin : logc3_c * ((-(954243:ℝ))/10^6) + logc3_d <
      logc3_e * ((10591:ℝ)/10^6) + logc3_f := by
    norm_num [logc3_c, logc3_d, logc3_e, logc3_f]
  have hmul := mul_lt_mul_of_pos_left hlb
    (by norm_num [logc3_c] : (0:ℝ) < logc3_c)
  rw [h1, h2, harg]
  linarith

/-! ## DPX writer (src/stopmo_xcode/write/dpx_writer.py)

Pixel floats are modelled as ℚ (`np.nan_to_num` is the identity on the
finite values ℚ represents); byte strings as `List Nat` of values < 256.
`struct.pack_into` raises on out-of-range values, modelled by `Except`;
the wall-clock timestamp of `_build_header` is an explicit `ts` argument. -/

def HEADER_SIZE : ℕ := 2048

/-- A numpy array: its shape and row-major flattened data. -/
structure NDArray where
  shape : List ℕ
  data : List ℚ

/-- `struct.pack_into` byte placement: overwrite `vs` at offset `off`. -/
def storeBytes (buf : List ℕ) (off : ℕ) (vs : List ℕ) : List ℕ :=
  buf.take off ++ vs ++ buf.drop (off + vs.length)

/-- Raw `pack_into` of preencoded bytes (fails past the buffer end). -/
def packBytes (buf : List ℕ) (off : ℕ) (vs : List ℕ) : Except String (List ℕ) :=
  if off + vs.length ≤ buf.length then .ok (storeBytes buf off vs)
  else .error "struct.error: pack_into requires a buffer of sufficient size"

/-- Big-endian bytes of a u32 (`>I`). -/
def u32be (v : ℕ) : List ℕ := [v / 2^24 % 256, v / 2^16 % 256, v / 2^8 % 256, v % 256]

/-- Big-endian bytes of a u16 (`>H`). -/
def u16be (v : ℕ) : List ℕ := [v / 2^8 % 256, v % 256]

def packU32 (buf : List ℕ) (off v : ℕ) : Except String (List ℕ) :=
  if v < 2^32 then packBytes buf off (u32be v)
  else .error "struct.error: argument out of range for I format"

def packU16 (buf : List ℕ) (off v : ℕ) : Except String (List ℕ) :=
  if v < 2^16 then packBytes buf off (u16be v)
  else .error "struct.error: argument out of range for H format"

def packU8 (buf : List ℕ) (off v : ℕ) : Except String (List ℕ) :=
  if v < 2^8 then packBytes buf off [v]
  else .error "struct.error: argument out of range for B format"

/-- `_to_ascii_bytes`: drop non-ASCII, truncate to `len - 1`, zero-pad. -/
def asciiBytes (s : String) (len : ℕ) : List ℕ :=
  let bs := ((s.toList.filter (fun c => c.toNat < 128)).map Char.toNat).take (len - 1)
  bs ++ List.replicate (len - bs.length) 0

/-- IEEE-754 big-endian bytes of the float32 constant 0.0 (`>f`). -/
def f32be_zero : List ℕ := [0, 0, 0, 0]

/-- IEEE-754 big-endian bytes of the float32 constant 1.0 (`>f`). -/
def f32be_one : List ℕ := [63, 128, 0, 0]

/-- Exception propagation through the sequential `pack_into` statements. -/
def andThen (x : Except String (List ℕ)) (f : List ℕ → Except String (List ℕ)) :
    Except String (List ℕ) :=
  match x with
  | .error e => .error e
  | .ok b => f b

/-- `np.rint`: round half to even. -/
def rintHalfEven (q : ℚ) : ℤ :=
  let fl := ⌊q⌋
  if q - fl < 1/2 then fl
  else if 1/2 < q - fl then fl + 1
  else if fl % 2 = 0 then fl else fl + 1

/-- One channel of `_pack_rgb10`: clip to [0,1], scale by 1023, `rint`,
as an unsigned code value. -/
def code10 (q : ℚ) : ℕ := (rintHalfEven (min (max q 0) 1 * 1023)).toNat

/-- `_pack_rgb10`: consume pixels three channels at a time and pack each
into one big-endian 32-bit word `(R10<<22)|(G10<<12)|(B10<<2)`. -/
def packPixels : List ℚ → List ℕ
  | r :: g :: b :: rest =>
    u32be ((code10 r <<< 22) ||| (code10 g <<< 12) ||| (code10 b <<< 2)) ++
      packPixels rest
  | _ => []

/-- `_build_header` from `dpx_writer.py`: the exact `pack_into` sequence
over a zeroed 2048-byte buffer. -/
def build_header (width height : ℕ) (filename : String) (file_size data_offset : ℕ)
    (creator project description ts : String) : Except String (List ℕ) :=
  andThen (packBytes (List.replicate HEADER_SIZE 0) 0 [83, 68, 80, 88]) (fun h0 =>
  andThen (packU32 h0 4 data_offset) (fun h1 =>
  andThen (packBytes h1 8 (asciiBytes "V2.0" 8)) (fun h2 =>
  andThen (packU32 h2 16 file_size) (fun h3 =>
  andThen (packU32 h3 20 0) (fun h4 =>
  andThen (packU32 h4 24 1664) (fun h5 =>
  andThen (packU32 h5 28 384) (fun h6 =>
  andThen (packU32 h6 32 0) (fun h7 =>
  andThen (packBytes h7 36 (asciiBytes filename 100)) (fun h8 =>
  andThen (packBytes h8 136 (asciiBytes ts 24)) (fun h9 =>
  andThen (packBytes h9 160 (asciiBytes creator 100)) (fun h10 =>
  andThen (packBytes h10 260 (asciiBytes project 200)) (fun h11 =>
  andThen (packBytes h11 460 (asciiBytes "" 200)) (fun h12 =>
  andThen (packU32 h12 660 4294967295) (fun h13 =>
  andThen (packU16 h13 768 0) (fun h14 =>
  andThen (packU16 h14 770 1) (fun h15 =>
  andThen (packU32 h15 772 width) (fun h16 =>
  andThen (packU32 h16 776 height) (fun h17 =>
  andThen (packU32 h17 780 0) (fun h18 =>
  andThen (packU32 h18 784 0) (fun h19 =>
  andThen (packBytes h19 788 f32be_zero) (fun h20 =>
  andThen (packU32 h20 792 1023) (fun h21 =>
  andThen (packBytes h21 796 f32be_one) (fun h22 =>
  andThen (packU8 h22 800 50) (fun h23 =>
  andThen (packU8 h23 801 2) (fun h24 =>
  andThen (packU8 h24 802 1) (fun h25 =>
  andThen (packU8 h25 803 10) (fun h26 =>
  andThen (packU16 h26 804 1) (fun h27 =>
  andThen (packU16 h27 806 0) (fun h28 =>
  andThen (packU32 h28 808 data_offset) (fun h29 =>
  andThen (packU32 h29 812 0) (fun h30 =>
  andThen (packU32 h30 816 0) (fun h31 =>
  andThen (packBytes h31 820 (asciiBytes description 32)) (fun h32 =>
  andThen (packU32 h32 1628 0) (fun h33 =>
  andThen (packU32 h33 1632 0) (fun h34 =>
  Except.ok h34)))))))))))))))))))))))))))))))))))

/-- `write_dpx10_logc_awg` from `dpx_writer.py`, returning the bytes that
would be written to the file (header then payload), or the raised error. -/
def write_dpx10_logc_awg (img : NDArray) (path_name creator ts : String) :
    Except String (List ℕ) :=
  match img.shape with
  | [height, width, chans] =>
    if chans ≠ 3 then .error "expected HxWx3 RGB image"
    else
      let payload := packPixels img.data
      let data_offset := HEADER_SIZE
      let file_size := data_offset + payload.length
      andThen
        (build_header width height path_name file_size data_offset creator
          "stopmo-xcode" "ARRI LogC3 EI800 + AWG" ts)
        (fun header => .ok (header ++ payload))
  | _ => .error "expected HxWx3 RGB image"

/-! ## Byte-buffer lemmas for the DPX header -/

theorem getD_take {l : List ℕ} {n i : ℕ} (h : i < n) :
    (l.take n).getD i 0 = l.getD i 0 := by
  rw [List.getD_eq_getElem?_getD, List.getD_eq_getElem?_getD, List.getElem?_take,
    if_pos h]

theorem getD_drop (l : List ℕ) (n i : ℕ) :
    (l.drop n).getD i 0 = l.getD (n + i) 0 := by
  rw [List.getD_eq_getElem?_getD, List.getD_eq_getElem?_getD, List.getElem?_drop]

theorem storeBytes_length {buf vs : List ℕ} {off : ℕ}
    (h : off + vs.length ≤ buf.length) :
    (storeBytes buf off vs).length = buf.length := by
  rw [storeBytes]
  simp only [List.length_append, List.length_take, List.length_drop]
  omega

theorem storeBytes_getD_lt {buf vs : List ℕ} {off i : ℕ}
    (hb : off + vs.length ≤ buf.length) (h : i < off) :
    (storeBytes buf off vs).getD i 0 = buf.getD i 0 := by
  have htl : (buf.take off).length = off := by simp; omega
  rw [storeBytes, List.getD_append _ _ 0 i (by simp only [List.length_append, htl]; omega),
    List.getD_append _ _ 0 i (by rw [htl]; omega), getD_take h]

theorem storeBytes_getD_in {buf vs : List ℕ} {off i : ℕ}
    (hb : off + vs.length ≤ buf.length) (h1 : off ≤ i) (h2 : i < off + vs.length) :
    (storeBytes buf off vs).getD i 0 = vs.getD (i - off) 0 := by
  have htl : (buf.take off).length = off := by simp; omega
  rw [storeBytes, List.getD_append _ _ 0 i (by simp only [List.length_append, htl]; omega),
    List.getD_append_right _ _ 0 i (by rw [htl]; omega), htl]

theorem storeBytes_getD_ge {buf vs : List ℕ} {off i : ℕ}
    (hb : off + vs.length ≤ buf.length) (h : off + vs.length ≤ i) :
    (storeBytes buf off vs).getD i 0 = buf.getD i 0 := by
  have htl : (buf.take off).length = off := by simp; omega
  rw [storeBytes, List.getD_append_right _ _ 0 i
      (by simp only [List.length_append, htl]; omega),
    getD_drop]
  congr 1
  simp only [List.length_append, htl]
  omega

theorem asciiBytes_length (s : String) (n : ℕ) : (asciiBytes s n).length = n := by
  rw [asciiBytes]
  simp only [List.length_append, List.length_replicate]
  have : (((s.toList.filter (fun c => c.toNat < 128)).map Char.toNat).take (n - 1)).length
      ≤ n - 1 := by
    simp [List.length_take]
  omega

theorem u32be_length (v : ℕ) : (u32be v).length = 4 := rfl

theorem u16be_length (v : ℕ) : (u16be v).length = 2 := rfl

theorem packBytes_ok {buf vs : List ℕ} {off : ℕ}
    (h : off + vs.length ≤ buf.length) :
    packBytes buf off vs = .ok (storeBytes buf off vs) := by
  rw [packBytes, if_pos h]

theorem packU32_ok {buf : List ℕ} {off v : ℕ} (hv : v < 2^32)
    (h : off + 4 ≤ buf.length) :
    packU32 buf off v = .ok (storeBytes buf off (u32be v)) := by
  rw [packU32, if_pos hv, packBytes_ok (by rw [u32be_length]; exact h)]

theorem packU16_ok {buf : List ℕ} {off v : ℕ} (hv : v < 2^16)
    (h : off + 2 ≤ buf.length) :
    packU16 buf off v = .ok (storeBytes buf off (u16be v)) := by
  rw [packU16, if_pos hv, packBytes_ok (by rw [u16be_length]; exact h)]

theorem packU8_ok {buf : List ℕ} {off v : ℕ} (hv : v < 2^8)
    (h : off + 1 ≤ buf.length) :
    packU8 buf off v = .ok (storeBytes buf off [v]) := by
  rw [packU8, if_pos hv, packBytes_ok (by simpa using h)]

theorem andThen_ok {b : List ℕ} {f : List ℕ → Except String (List ℕ)} :
    andThen (.ok b) f = f b := rfl

theorem andThen_error {e : String} {f : List ℕ → Except String (List ℕ)} :
    andThen (.error e) f = .error e := rfl

/-- Big-endian u32 read-back at a byte offset. -/
def u32At (l : List ℕ) (off : ℕ) : ℕ :=
  l.getD off 0 * 2^24 + l.getD (off+1) 0 * 2^16 + l.getD (off+2) 0 * 2^8 +
    l.getD (off+3) 0

/-- Reading back the four bytes written by `u32be` recovers the value. -/
theorem u32At_storeBytes_u32be {buf : List ℕ} {off v : ℕ} (hv : v < 2^32)
    (hb : off + 4 ≤ buf.length) :
    u32At (storeBytes buf off (u32be v)) off = v := by
  have hb' : off + (u32be v).length ≤ buf.length := by rw [u32be_length]; exact hb
  rw [u32At,
    storeBytes_getD_in hb' (le_refl off) (by rw [u32be_length]; omega),
    storeBytes_getD_in hb' (by omega) (by rw [u32be_length]; omega),
    storeBytes_getD_in hb' (by omega) (by rw [u32be_length]; omega),
    storeBytes_getD_in hb' (by omega) (by rw [u32be_length]; omega)]
  simp only [Nat.sub_self, u32be]
  have h1 : off + 1 - off = 1 := by omega
  have h2 : off + 2 - off = 2 := by omega
  have h3 : off + 3 - off = 3 := by omega
  rw [h1, h2, h3]
  simp only [List.getD]
  show v / 2^24 % 256 * 2^24 + v / 2^16 % 256 * 2^16 + v / 2^8 % 256 * 2^8 + v % 256 = v
  omega

/-- A later write entirely above a u32 window leaves the read unchanged. -/
theorem u32At_storeBytes_above {buf vs : List ℕ} {off i : ℕ}
    (hb : off + vs.length ≤ buf.length) (h : i + 4 ≤ off) :
    u32At (storeBytes buf off vs) i = u32At buf i := by
  rw [u32At, u32At,
    storeBytes_getD_lt hb (by omega), storeBytes_getD_lt hb (by omega),
    storeBytes_getD_lt hb (by omega), storeBytes_getD_lt hb (by omega)]

/-- A later write entirely below a u32 window leaves the read unchanged. -/
theorem u32At_storeBytes_below {buf vs : List ℕ} {off i : ℕ}
    (hb : off + vs.length ≤ buf.length) (h : off + vs.length ≤ i) :
    u32At (storeBytes buf off vs) i = u32At buf i := by
  rw [u32At, u32At,
    storeBytes_getD_ge hb (by omega), storeBytes_getD_ge hb (by omega),
    storeBytes_getD_ge hb (by omega), storeBytes_getD_ge hb (by omega)]

/-- The header build succeeds whenever width, height, file size and data
offset fit in a u32, and the resulting 2048-byte header carries the magic,
the file-size field at offset 16 and the width/height fields at 772/776. -/
theorem build_header_ok (width height : ℕ) (filename : String)
    (file_size data_offset : ℕ) (creator project description ts : String)
    (hw : width < 2^32) (hh : height < 2^32) (hfs : file_size < 2^32)
    (hdo : data_offset < 2^32) :
    ∃ hdr, build_header width height filename file_size data_offset creator
        project description ts = .ok hdr ∧
      hdr.length = 2048 ∧
      hdr.getD 0 0 = 83 ∧ hdr.getD 1 0 = 68 ∧ hdr.getD 2 0 = 80 ∧
      hdr.getD 3 0 = 88 ∧
      u32At hdr 16 = file_size ∧ u32At hdr 772 = width ∧
      u32At hdr 776 = height := by
  rw [build_header]
  rw [packBytes_ok (by rw [List.length_replicate]; norm_num [HEADER_SIZE]), andThen_ok]
  set H0 := storeBytes (List.replicate HEADER_SIZE 0) 0 [83, 68, 80, 88] with hH0
  have L0 : H0.length = 2048 := by
    rw [hH0, storeBytes_length (by rw [List.length_replicate]; norm_num [HEADER_SIZE])]; rw [List.length_replicate]; rfl
  rw [packU32_ok hdo (by rw [L0]; norm_num), andThen_ok]
  set H1 := storeBytes H0 4 (u32be data_offset) with hH1
  have L1 : H1.length = 2048 := by
    rw [hH1, storeBytes_length (by rw [u32be_length, L0]; norm_num), L0]
  rw [packBytes_ok (by rw [asciiBytes_length, L1]; norm_num), andThen_ok]
  set H2 := storeBytes H1 8 (asciiBytes "V2.0" 8) with hH2
  have L2 : H2.length = 2048 := by
    rw [hH2, storeBytes_length (by rw [asciiBytes_length, L1]; norm_num), L1]
  rw [packU32_ok hfs (by rw [L2]; norm_num), andThen_ok]
  set H3 := storeBytes H2 16 (u32be file_size) with hH3
  have L3 : H3.length = 2048 := by
    rw [hH3, storeBytes_length (by rw [u32be_length, L2]; norm_num), L2]
  rw [packU32_ok (by norm_num) (by rw [L3]; norm_num), andThen_ok]
  set H4 := storeBytes H3 20 (u32be 0) with hH4
  have L4 : H4.length = 2048 := by
    rw [hH4, storeBytes_length (by rw [u32be_length, L3]; norm_num), L3]
  rw [packU32_ok (by norm_num) (by rw [L4]; norm_num), andThen_ok]
  set H5 := storeBytes H4 24 (u32be 1664) with hH5
  have L5 : H5.length = 2048 := by
    rw [hH5, storeBytes_length (by rw [u32be_length, L4]; norm_num), L4]
  rw [packU32_ok (by norm_num) (by rw [L5]; norm_num), andThen_ok]
  set H6 := storeBytes H5 28 (u32be 384) with hH6
  have L6 : H6.length = 2048 := by
    rw [hH6, storeBytes_length (by rw [u32be_length, L5]; norm_num), L5]
  rw [packU32_ok (by norm_num) (by rw [L6]; norm_num), andThen_ok]
  set H7 := storeBytes H6 32 (u32be 0) with hH7
  have L7 : H7.length = 2048 := by
    rw [hH7, storeBytes_length (by rw [u32be_length, L6]; norm_num), L6]
  rw [packBytes_ok (by rw [asciiBytes_length, L7]; norm_num), andThen_ok]
  set H8 := storeBytes H7 36 (asciiBytes filename 100) with hH8
  have L8 : H8.length = 2048 := by
    rw [hH8, storeBytes_length (by rw [asciiBytes_length, L7]; norm_num), L7]
  rw [packBytes_ok (by rw [asciiBytes_length, L8]; norm_num), andThen_ok]
  set H9 := storeBytes H8 136 (asciiBytes ts 24) with hH9
  have L9 : H9.length = 2048 := by
    rw [hH9, storeBytes_length (by rw [asciiBytes_length, L8]; norm_num), L8]
  rw [packBytes_ok (by rw [asciiBytes_length, L9]; norm_num), andThen_ok]
  set H10 := storeBytes H9 160 (asciiBytes creator 100) with hH10
  have L10 : H10.length = 2048 := by
    rw [hH10, storeBytes_length (by rw [asciiBytes_length, L9]; norm_num), L9]
  rw [packBytes_ok (by rw [asciiBytes_length, L10]; norm_num), andThen_ok]
  set H11 := storeBytes H10 260 (asciiBytes project 200) with hH11
  have L11 : H11.length = 2048 := by
    rw [hH11, storeBytes_length (by rw [asciiBytes_length, L10]; norm_num), L10]
  rw [packBytes_ok (by rw [asciiBytes_length, L11]; norm_num), andThen_ok]
  set H12 := storeBytes H11 460 (asciiBytes "" 200) with hH12
  have L12 : H12.length = 2048 := by
    rw [hH12, storeBytes_length (by rw [asciiBytes_length, L11]; norm_num), L11]
  rw [packU32_ok (by norm_num) (by rw [L12]; norm_num), andThen_ok]
  set H13 := storeBytes H12 660 (u32be 4294967295) with hH13
  have L13 : H13.length = 2048 := by
    rw [hH13, storeBytes_length (by rw [u32be_length, L12]; norm_num), L12]
  rw [packU16_ok (by norm_num) (by rw [L13]; norm_num), andThen_ok]
  set H14 := storeBytes H13 768 (u16be 0) with hH14
  have L14 : H14.length = 2048 := by
    rw [hH14, storeBytes_length (by rw [u16be_length, L13]; norm_num), L13]
  rw [packU16_ok (by norm_num) (by rw [L14]; norm_num), andThen_ok]
  set H15 := storeBytes H14 770 (u16be 1) with hH15
  have L15 : H15.length = 2048 := by
    rw [hH15, storeBytes_length (by rw [u16be_length, L14]; norm_num), L14]
  rw [packU32_ok hw (by rw [L15]; norm_num), andThen_ok]
  set H16 := storeBytes H15 772 (u32be width) with hH16
  have L16 : H16.length = 2048 := by
    rw [hH16, storeBytes_length (by rw [u32be_length, L15]; norm_num), L15]
  rw [packU32_ok hh (by rw [L16]; norm_num), andThen_ok]
  set H17 := storeBytes H16 776 (u32be height) with hH17
  have L17 : H17.length = 2048 := by
    rw [hH17, storeBytes_length (by rw [u32be_length, L16]; norm_num), L16]
  rw [packU32_ok (by norm_num) (by rw [L17]; norm_num), andThen_ok]
  set H18 := storeBytes H17 780 (u32be 0) with hH18
  have L18 : H18.length = 2048 := by
    rw [hH18, storeBytes_length (by rw [u32be_length, L17]; norm_num), L17]
  rw [packU32_ok (by norm_num) (by rw [L18]; norm_num), andThen_ok]
  set H19 := storeBytes H18 784 (u32be 0) with hH19
  have L19 : H19.length = 2048 := by
    rw [hH19, storeBytes_length (by rw [u32be_length, L18]; norm_num), L18]
  rw [packBytes_ok (by simp [L19, f32be_zero, f32be_one]), andThen_ok]
  set H20 := storeBytes H19 788 f32be_zero with hH20
  have L20 : H20.length = 2048 := by
    rw [hH20, storeBytes_length (by simp [L19, f32be_zero, f32be_one]), L19]
  rw [packU32_ok (by norm_num) (by rw [L20]; norm_num), andThen_ok]
  set H21 := storeBytes H20 792 (u32be 1023) with hH21
  have L21 : H21.length = 2048 := by
    rw [hH21, storeBytes_length (by rw [u32be_length, L20]; norm_num), L20]
  rw [packBytes_ok (by simp [L21, f32be_zero, f32be_one]), andThen_ok]
  set H22 := storeBytes H21 796 f32be_one with hH22
  have L22 : H22.length = 2048 := by
    rw [hH22, storeBytes_length (by simp [L21, f32be_zero, f32be_one]), L21]
  rw [packU8_ok (by norm_num) (by rw [L22]; norm_num), andThen_ok]
  set H23 := storeBytes H22 800 [50] with hH23
  have L23 : H23.length = 2048 := by
    rw [hH23, storeBytes_length (by simp [L22]), L22]
  rw [packU8_ok (by norm_num) (by rw [L23]; norm_num), andThen_ok]
  set H24 := storeBytes H23 801 [2] with hH24
  have L24 : H24.length = 2048 := by
    rw [hH24, storeBytes_length (by simp [L23]), L23]
  rw [packU8_ok (by norm_num) (by rw [L24]; norm_num), andThen_ok]
  set H25 := storeBytes H24 802 [1] with hH25
  have L25 : H25.length = 2048 := by
    rw [hH25, storeBytes_length (by simp [L24]), L24]
  rw [packU8_ok (by norm_num) (by rw [L25]; norm_num), andThen_ok]
  set H26 := storeBytes H25 803 [10] with hH26
  have L26 : H26.length = 2048 := by
    rw [hH26, storeBytes_length (by simp [L25]), L25]
  rw [packU16_ok (by norm_num) (by rw [L26]; norm_num), andThen_ok]
  set H27 := storeBytes H26 804 (u16be 1) with hH27
  have L27 : H27.length = 2048 := by
    rw [hH27, storeBytes_length (by rw [u16be_length, L26]; norm_num), L26]
  rw [packU16_ok (by norm_num) (by rw [L27]; norm_num), andThen_ok]
  set H28 := storeBytes H27 806 (u16be 0) with hH28
  have L28 : H28.length = 2048 := by
    rw [hH28, storeBytes_length (by rw [u16be_length, L27]; norm_num), L27]
  rw [packU32_ok hdo (by rw [L28]; norm_num), andThen_ok]
  set H29 := storeBytes H28 808 (u32be data_offset) with hH29
  have L29 : H29.length = 2048 := by
    rw [hH29, storeBytes_length (by rw [u32be_length, L28]; norm_num), L28]
  rw [packU32_ok (by norm_num) (by rw [L29]; norm_num), andThen_ok]
  set H30 := storeBytes H29 812 (u32be 0) with hH30
  have L30 : H30.length = 2048 := by
    rw [hH30, storeBytes_length (by rw [u32be_length, L29]; norm_num), L29]
  rw [packU32_ok (by norm_num) (by rw [L30]; norm_num), andThen_ok]
  set H31 := storeBytes H30 816 (u32be 0) with hH31
  have L31 : H31.length = 2048 := by
    rw [hH31, storeBytes_length (by rw [u32be_length, L30]; norm_num), L30]
  rw [packBytes_ok (by rw [asciiBytes_length, L31]; norm_num), andThen_ok]
  set H32 := storeBytes H31 820 (asciiBytes description 32) with hH32
  have L32 : H32.length = 2048 := by
    rw [hH32, storeBytes_length (by rw [asciiBytes_length, L31]; norm_num), L31]
  rw [packU32_ok (by norm_num) (by rw [L32]; norm_num), andThen_ok]
  set H33 := storeBytes H32 1628 (u32be 0) with hH33
  have L33 : H33.length = 2048 := by
    rw [hH33, storeBytes_length (by rw [u32be_length, L32]; norm_num), L32]
  rw [packU32_ok (by norm_num) (by rw [L33]; norm_num), andThen_ok]
  set H34 := storeBytes H33 1632 (u32be 0) with hH34
  have L34 : H34.length = 2048 := by
    rw [hH34, storeBytes_length (by rw [u32be_length, L33]; norm_num), L33]
  refine ⟨H34, rfl, L34, ?_, ?_, ?_, ?_, ?_, ?_, ?_⟩
  · -- magic byte 0
    rw [hH34, storeBytes_getD_lt (by rw [u32be_length, L33]; norm_num) (by norm_num)]
    rw [hH33, storeBytes_getD_lt (by rw [u32be_length, L32]; norm_num) (by norm_num)]
    rw [hH32, storeBytes_getD_lt (by rw [asciiBytes_length, L31]; norm_num) (by norm_num)]
    rw [hH31, storeBytes_getD_lt (by rw [u32be_length, L30]; norm_num) (by norm_num)]
    rw [hH30, storeBytes_getD_lt (by rw [u32be_length, L29]; norm_num) (by norm_num)]
    rw [hH29, storeBytes_getD_lt (by rw [u32be_length, L28]; norm_num) (by norm_num)]
    rw [hH28, storeBytes_getD_lt (by rw [u16be_length, L27]; norm_num) (by norm_num)]
    rw [hH27, storeBytes_getD_lt (by rw [u16be_length, L26]; norm_num) (by norm_num)]
    rw [hH26, storeBytes_getD_lt (by simp [L25]) (by norm_num)]
    rw [hH25, storeBytes_getD_lt (by simp [L24]) (by norm_num)]
    rw [hH24, storeBytes_getD_lt (by simp [L23]) (by norm_num)]
    rw [hH23, storeBytes_getD_lt (by simp [L22]) (by norm_num)]
    rw [hH22, storeBytes_getD_lt (by simp [L21, f32be_zero, f32be_one]) (by norm_num)]
    rw [hH21, storeBytes_getD_lt (by rw [u32be_length, L20]; norm_num) (by norm_num)]
    rw [hH20, storeBytes_getD_lt (by simp [L19, f32be_zero, f32be_one]) (by norm_num)]
    rw [hH19, storeBytes_getD_lt (by rw [u32be_length, L18]; norm_num) (by norm_num)]
    rw [hH18, storeBytes_getD_lt (by rw [u32be_length, L17]; norm_num) (by norm_num)]
    rw [hH17, storeBytes_getD_lt (by rw [u32be_length, L16]; norm_num) (by norm_num)]
    rw [hH16, storeBytes_getD_lt (by rw [u32be_length, L15]; norm_num) (by norm_num)]
    rw [hH15, storeBytes_getD_lt (by rw [u16be_length, L14]; norm_num) (by norm_num)]
    rw [hH14, storeBytes_getD_lt (by rw [u16be_length, L13]; norm_num) (by norm_num)]
    rw [hH13, storeBytes_getD_lt (by rw [u32be_length, L12]; norm_num) (by norm_num)]
    rw [hH12, storeBytes_getD_lt (by rw [asciiBytes_length, L11]; norm_num) (by norm_num)]
    rw [hH11, storeBytes_getD_lt (by rw [asciiBytes_length, L10]; norm_num) (by norm_num)]
    rw [hH10, storeBytes_getD_lt (by rw [asciiBytes_length, L9]; norm_num) (by norm_num)]
    rw [hH9, storeBytes_getD_lt (by rw [asciiBytes_length, L8]; norm_num) (by norm_num)]
    rw [hH8, storeBytes_getD_lt (by rw [asciiBytes_length, L7]; norm_num) (by norm_num)]
    rw [hH7, storeBytes_getD_lt (by rw [u32be_length, L6]; norm_num) (by norm_num)]
    rw [hH6, storeBytes_getD_lt (by rw [u32be_length, L5]; norm_num) (by norm_num)]
    rw [hH5, storeBytes_getD_lt (by rw [u32be_length, L4]; norm_num) (by norm_num)]
    rw [hH4, storeBytes_getD_lt (by rw [u32be_length, L3]; norm_num) (by norm_num)]
    rw [hH3, storeBytes_getD_lt (by rw [u32be_length, L2]; norm_num) (by norm_num)]
    rw [hH2, storeBytes_getD_lt (by rw [asciiBytes_length, L1]; norm_num) (by norm_num)]
    rw [hH1, storeBytes_getD_lt (by rw [u32be_length, L0]; norm_num) (by norm_num)]
    rw [hH0, storeBytes_getD_in (by rw [List.length_replicate]; norm_num [HEADER_SIZE]) (by norm_num) (by norm_num)]
    decide
  · -- magic byte 1
    rw [hH34, storeBytes_getD_lt (by rw [u32be_length, L33]; norm_num) (by norm_num)]
    rw [hH33, storeBytes_getD_lt (by rw [u32be_length, L32]; norm_num) (by norm_num)]
    rw [hH32, storeBytes_getD_lt (by rw [asciiBytes_length, L31]; norm_num) (by norm_num)]
    rw [hH31, storeBytes_getD_lt (by rw [u32be_length, L30]; norm_num) (by norm_num)]
    rw [hH30, storeBytes_getD_lt (by rw [u32be_length, L29]; norm_num) (by norm_num)]
    rw [hH29, storeBytes_getD_lt (by rw [u32be_length, L28]; norm_num) (by norm_num)]
    rw [hH28, storeBytes_getD_lt (by rw [u16be_length, L27]; norm_num) (by norm_num)]
    rw [hH27, storeBytes_getD_lt (by rw [u16be_length, L26]; norm_num) (by norm_num)]
    rw [hH26, storeBytes_getD_lt (by simp [L25]) (by norm_num)]
    rw [hH25, storeBytes_getD_lt (by simp [L24]) (by norm_num)]
    rw [hH24, storeBytes_getD_lt (by simp [L23]) (by norm_num)]
    rw [hH23, storeBytes_getD_lt (by simp [L22]) (by norm_num)]
    rw [hH22, storeBytes_getD_lt (by simp [L21, f32be_zero, f32be_one]) (by norm_num)]
    rw [hH21, storeBytes_getD_lt (by rw [u32be_length, L20]; norm_num) (by norm_num)]
    rw [hH20, storeBytes_getD_lt (by simp [L19, f32be_zero, f32be_one]) (by norm_num)]
    rw [hH19, storeBytes_getD_lt (by rw [u32be_length, L18]; norm_num) (by norm_num)]
    rw [hH18, storeBytes_getD_lt (by rw [u32be_length, L17]; norm_num) (by norm_num)]
    rw [hH17, storeBytes_getD_lt (by rw [u32be_length, L16]; norm_num) (by norm_num)]
    rw [hH16, storeBytes_getD_lt (by rw [u32be_length, L15]; norm_num) (by norm_num)]
    rw [hH15, storeBytes_getD_lt (by rw [u16be_length, L14]; norm_num) (by norm_num)]
    rw [hH14, storeBytes_getD_lt (by rw [u16be_length, L13]; norm_num) (by norm_num)]
    rw [hH13, storeBytes_getD_lt (by rw [u32be_length, L12]; norm_num) (by norm_num)]
    rw [hH12, storeBytes_getD_lt (by rw [asciiBytes_length, L11]; norm_num) (by norm_num)]
    rw [hH11, storeBytes_getD_lt (by rw [asciiBytes_length, L10]; norm_num) (by norm_num)]
    rw [hH10, storeBytes_getD_lt (by rw [asciiBytes_length, L9]; norm_num) (by norm_num)]
    rw [hH9, storeBytes_getD_lt (by rw [asciiBytes_length, L8]; norm_num) (by norm_num)]
    rw [hH8, storeBytes_getD_lt (by rw [asciiBytes_length, L7]; norm_num) (by norm_num)]
    rw [hH7, storeBytes_getD_lt (by rw [u32be_length, L6]; norm_num) (by norm_num)]
    rw [hH6, storeBytes_getD_lt (by rw [u32be_length, L5]; norm_num) (by norm_num)]
    rw [hH5, storeBytes_getD_lt (by rw [u32be_length, L4]; norm_num) (by norm_num)]
    rw [hH4, storeBytes_getD_lt (by rw [u32be_length, L3]; norm_num) (by norm_num)]
    rw [hH3, storeBytes_getD_lt (by rw [u32be_length, L2]; norm_num) (by norm_num)]
    rw [hH2, storeBytes_getD_lt (by rw [asciiBytes_length, L1]; norm_num) (by norm_num)]
    rw [hH1, storeBytes_getD_lt (by rw [u32be_length, L0]; norm_num) (by norm_num)]
    rw [hH0, storeBytes_getD_in (by rw [List.length_replicate]; norm_num [HEADER_SIZE]) (by norm_num) (by norm_num)]
    decide
  · -- magic byte 2
    rw [hH34, storeBytes_getD_lt (by rw [u32be_length, L33]; norm_num) (by norm_num)]
    rw [hH33, storeBytes_getD_lt (by rw [u32be_length, L32]; norm_num) (by norm_num)]
    rw [hH32, storeBytes_getD_lt (by rw [asciiBytes_length, L31]; norm_num) (by norm_num)]
    rw [hH31, storeBytes_getD_lt (by rw [u32be_length, L30]; norm_num) (by norm_num)]
    rw [hH30, storeBytes_getD_lt (by rw [u32be_length, L29]; norm_num) (by norm_num)]
    rw [hH29, storeBytes_getD_lt (by rw [u32be_length, L28]; norm_num) (by norm_num)]
    rw [hH28, storeBytes_getD_lt (by rw [u16be_length, L27]; norm_num) (by norm_num)]
    rw [hH27, storeBytes_getD_lt (by rw [u16be_length, L26]; norm_num) (by norm_num)]
    rw [hH26, storeBytes_getD_lt (by simp [L25]) (by norm_num)]
    rw [hH25, storeBytes_getD_lt (by simp [L24]) (by norm_num)]
    rw [hH24, storeBytes_getD_lt (by simp [L23]) (by norm_num)]
    rw [hH23, storeBytes_getD_lt (by simp [L22]) (by norm_num)]
    rw [hH22, storeBytes_getD_lt (by simp [L21, f32be_zero, f32be_one]) (by norm_num)]
    rw [hH21, storeBytes_getD_lt (by rw [u32be_length, L20]; norm_num) (by norm_num)]
    rw [hH20, storeBytes_getD_lt (by simp [L19, f32be_zero, f32be_one]) (by norm_num)]
    rw [hH19, storeBytes_getD_lt (by rw [u32be_length, L18]; norm_num) (by norm_num)]
    rw [hH18, storeBytes_getD_lt (by rw [u32be_length, L17]; norm_num) (by norm_num)]
    rw [hH17, storeBytes_getD_lt (by rw [u32be_length, L16]; norm_num) (by norm_num)]
    rw [hH16, storeBytes_getD_lt (by rw [u32be_length, L15]; norm_num) (by norm_num)]
    rw [hH15, storeBytes_getD_lt (by rw [u16be_length, L14]; norm_num) (by norm_num)]
    rw [hH14, storeBytes_getD_lt (by rw [u16be_length, L13]; norm_num) (by norm_num)]
    rw [hH13, storeBytes_getD_lt (by rw [u32be_length, L12]; norm_num) (by norm_num)]
    rw [hH12, storeBytes_getD_lt (by rw [asciiBytes_length, L11]; norm_num) (by norm_num)]
    rw [hH11, storeBytes_getD_lt (by rw [asciiBytes_length, L10]; norm_num) (by norm_num)]
    rw [hH10, storeBytes_getD_lt (by rw [asciiBytes_length, L9]; norm_num) (by norm_num)]
    rw [hH9, storeBytes_getD_lt (by rw [asciiBytes_length, L8]; norm_num) (by norm_num)]
    rw [hH8, storeBytes_getD_lt (by rw [asciiBytes_length, L7]; norm_num) (by norm_num)]
    rw [hH7, storeBytes_getD_lt (by rw [u32be_length, L6]; norm_num) (by norm_num)]
    rw [hH6, storeBytes_getD_lt (by rw [u32be_length, L5]; norm_num) (by norm_num)]
    rw [hH5, storeBytes_getD_lt (by rw [u32be_length, L4]; norm_num) (by norm_num)]
    rw [hH4, storeBytes_getD_lt (by rw [u32be_length, L3]; norm_num) (by norm_num)]
    rw [hH3, storeBytes_getD_lt (by rw [u32be_length, L2]; norm_num) (by norm_num)]
    rw [hH2, storeBytes_getD_lt (by rw [asciiBytes_length, L1]; norm_num) (by norm_num)]
    rw [hH1, storeBytes_getD_lt (by rw [u32be_length, L0]; norm_num) (by norm_num)]
    rw [hH0, storeBytes_getD_in (by rw [List.length_replicate]; norm_num [HEADER_SIZE]) (by norm_num) (by norm_num)]
    decide
  · -- magic byte 3
    rw [hH34, storeBytes_getD_lt (by rw [u32be_length, L33]; norm_num) (by norm_num)]
    rw [hH33, storeBytes_getD_lt (by rw [u32be_length, L32]; norm_num) (by norm_num)]
    rw [hH32, storeBytes_getD_lt (by rw [asciiBytes_length, L31]; norm_num) (by norm_num)]
    rw [hH31, storeBytes_getD_lt (by rw [u32be_length, L30]; norm_num) (by norm_num)]
    rw [hH30, storeBytes_getD_lt (by rw [u32be_length, L29]; norm_num) (by norm_num)]
    rw [hH29, storeBytes_getD_lt (by rw [u32be_length, L28]; norm_num) (by norm_num)]
    rw [hH28, storeBytes_getD_lt (by rw [u16be_length, L27]; norm_num) (by norm_num)]
    rw [hH27, storeBytes_getD_lt (by rw [u16be_length, L26]; norm_num) (by norm_num)]
    rw [hH26, storeBytes_getD_lt (by simp [L25]) (by norm_num)]
    rw [hH25, storeBytes_getD_lt (by simp [L24]) (by norm_num)]
    rw [hH24, storeBytes_getD_lt (by simp [L23]) (by norm_num)]
    rw [hH23, storeBytes_getD_lt (by simp [L22]) (by norm_num)]
    rw [hH22, storeBytes_getD_lt (by simp [L21, f32be_zero, f32be_one]) (by norm_num)]
    rw [hH21, storeBytes_getD_lt (by rw [u32be_length, L20]; norm_num) (by norm_num)]
    rw [hH20, storeBytes_getD_lt (by simp [L19, f32be_zero, f32be_one]) (by norm_num)]
    rw [hH19, storeBytes_getD_lt (by rw [u32be_length, L18]; norm_num) (by norm_num)]
    rw [hH18, storeBytes_getD_lt (by rw [u32be_length, L17]; norm_num) (by norm_num)]
    rw [hH17, storeBytes_getD_lt (by rw [u32be_length, L16]; norm_num) (by norm_num)]
    rw [hH16, storeBytes_getD_lt (by rw [u32be_length, L15]; norm_num) (by norm_num)]
    rw [hH15, storeBytes_getD_lt (by rw [u16be_length, L14]; norm_num) (by norm_num)]
    rw [hH14, storeBytes_getD_lt (by rw [u16be_length, L13]; norm_num) (by norm_num)]
    rw [hH13, storeBytes_getD_lt (by rw [u32be_length, L12]; norm_num) (by norm_num)]
    rw [hH12, storeBytes_getD_lt (by rw [asciiBytes_length, L11]; norm_num) (by norm_num)]
    rw [hH11, storeBytes_getD_lt (by rw [asciiBytes_length, L10]; norm_num) (by norm_num)]
    rw [hH10, storeBytes_getD_lt (by rw [asciiBytes_length, L9]; norm_num) (by norm_num)]
    rw [hH9, storeBytes_getD_lt (by rw [asciiBytes_length, L8]; norm_num) (by norm_num)]
    rw [hH8, storeBytes_getD_lt (by rw [asciiBytes_length, L7]; norm_num) (by norm_num)]
    rw [hH7, storeBytes_getD_lt (by rw [u32be_length, L6]; norm_num) (by norm_num)]
    rw [hH6, storeBytes_getD_lt (by rw [u32be_length, L5]; norm_num) (by norm_num)]
    rw [hH5, storeBytes_getD_lt (by rw [u32be_length, L4]; norm_num) (by norm_num)]
    rw [hH4, storeBytes_getD_lt (by rw [u32be_length, L3]; norm_num) (by norm_num)]
    rw [hH3, storeBytes_getD_lt (by rw [u32be_length, L2]; norm_num) (by norm_num)]
    rw [hH2, storeBytes_getD_lt (by rw [asciiBytes_length, L1]; norm_num) (by norm_num)]
    rw [hH1, storeBytes_getD_lt (by rw [u32be_length, L0]; norm_num) (by norm_num)]
    rw [hH0, storeBytes_getD_in (by rw [List.length_replicate]; norm_num [HEADER_SIZE]) (by norm_num) (by norm_num)]
    decide
  · -- u32 field at 16
    rw [hH34, u32At_storeBytes_above (by rw [u32be_length, L33]; norm_num) (by norm_num)]
    rw [hH33, u32At_storeBytes_above (by rw [u32be_length, L32]; norm_num) (by norm_num)]
    rw [hH32, u32At_storeBytes_above (by rw [asciiBytes_length, L31]; norm_num) (by norm_num)]
    rw [hH31, u32At_storeBytes_above (by rw [u32be_length, L30]; norm_num) (by norm_num)]
    rw [hH30, u32At_storeBytes_above (by rw [u32be_length, L29]; norm_num) (by norm_num)]
    rw [hH29, u32At_storeBytes_above (by rw [u32be_length, L28]; norm_num) (by norm_num)]
    rw [hH28, u32At_storeBytes_above (by rw [u16be_length, L27]; norm_num) (by norm_num)]
    rw [hH27, u32At_storeBytes_above (by rw [u16be_length, L26]; norm_num) (by norm_num)]
    rw [hH26, u32At_storeBytes_above (by simp [L25]) (by norm_num)]
    rw [hH25, u32At_storeBytes_above (by simp [L24]) (by norm_num)]
    rw [hH24, u32At_storeBytes_above (by simp [L23]) (by norm_num)]
    rw [hH23, u32At_storeBytes_above (by simp [L22]) (by norm_num)]
    rw [hH22, u32At_storeBytes_above (by simp [L21, f32be_zero, f32be_one]) (by norm_num)]
    rw [hH21, u32At_storeBytes_above (by rw [u32be_length, L20]; norm_num) (by norm_num)]
    rw [hH20, u32At_storeBytes_above (by simp [L19, f32be_zero, f32be_one]) (by norm_num)]
    rw [hH19, u32At_storeBytes_above (by rw [u32be_length, L18]; norm_num) (by norm_num)]
    rw [hH18, u32At_storeBytes_above (by rw [u32be_length, L17]; norm_num) (by norm_num)]
    rw [hH17, u32At_storeBytes_above (by rw [u32be_length, L16]; norm_num) (by norm_num)]
    rw [hH16, u32At_storeBytes_above (by rw [u32be_length, L15]; norm_num) (by norm_num)]
    rw [hH15, u32At_storeBytes_above (by rw [u16be_length, L14]; norm_num) (by norm_num)]
    rw [hH14, u32At_storeBytes_above (by rw [u16be_length, L13]; norm_num) (by norm_num)]
    rw [hH13, u32At_storeBytes_above (by rw [u32be_length, L12]; norm_num) (by norm_num)]
    rw [hH12, u32At_storeBytes_above (by rw [asciiBytes_length, L11]; norm_num) (by norm_num)]
    rw [hH11, u32At_storeBytes_above (by rw [asciiBytes_length, L10]; norm_num) (by norm_num)]
    rw [hH10, u32At_storeBytes_above (by rw [asciiBytes_length, L9]; norm_num) (by norm_num)]
    rw [hH9, u32At_storeBytes_above (by rw [asciiBytes_length, L8]; norm_num) (by norm_num)]
    rw [hH8, u32At_storeBytes_above (by rw [asciiBytes_length, L7]; norm_num) (by norm_num)]
    rw [hH7, u32At_storeBytes_above (by rw [u32be_length, L6]; norm_num) (by norm_num)]
    rw [hH6, u32At_storeBytes_above (by rw [u32be_length, L5]; norm_num) (by norm_num)]
    rw [hH5, u32At_storeBytes_above (by rw [u32be_length, L4]; norm_num) (by norm_num)]
    rw [hH4, u32At_storeBytes_above (by rw [u32be_length, L3]; norm_num) (by norm_num)]
    rw [hH3, u32At_storeBytes_u32be hfs (by rw [L2]; norm_num)]
  · -- u32 field at 772
    rw [hH34, u32At_storeBytes_above (by rw [u32be_length, L33]; norm_num) (by norm_num)]
    rw [hH33, u32At_storeBytes_above (by rw [u32be_length, L32]; norm_num) (by norm_num)]
    rw [hH32, u32At_storeBytes_above (by rw [asciiBytes_length, L31]; norm_num) (by norm_num)]
    rw [hH31, u32At_storeBytes_above (by rw [u32be_length, L30]; norm_num) (by norm_num)]
    rw [hH30, u32At_storeBytes_above (by rw [u32be_length, L29]; norm_num) (by norm_num)]
    rw [hH29, u32At_storeBytes_above (by rw [u32be_length, L28]; norm_num) (by norm_num)]
    rw [hH28, u32At_storeBytes_above (by rw [u16be_length, L27]; norm_num) (by norm_num)]
    rw [hH27, u32At_storeBytes_above (by rw [u16be_length, L26]; norm_num) (by norm_num)]
    rw [hH26, u32At_storeBytes_above (by simp [L25]) (by norm_num)]
    rw [hH25, u32At_storeBytes_above (by simp [L24]) (by norm_num)]
    rw [hH24, u32At_storeBytes_above (by simp [L23]) (by norm_num)]
    rw [hH23, u32At_storeBytes_above (by simp [L22]) (by norm_num)]
    rw [hH22, u32At_storeBytes_above (by simp [L21, f32be_zero, f32be_one]) (by norm_num)]
    rw [hH21, u32At_storeBytes_above (by rw [u32be_length, L20]; norm_num) (by norm_num)]
    rw [hH20, u32At_storeBytes_above (by simp [L19, f32be_zero, f32be_one]) (by norm_num)]
    rw [hH19, u32At_storeBytes_above (by rw [u32be_length, L18]; norm_num) (by norm_num)]
    rw [hH18, u32At_storeBytes_above (by rw [u32be_length, L17]; norm_num) (by norm_num)]
    rw [hH17, u32At_storeBytes_above (by rw [u32be_length, L16]; norm_num) (by norm_num)]
    rw [hH16, u32At_storeBytes_u32be hw (by rw [L15]; norm_num)]
  · -- u32 field at 776
    rw [hH34, u32At_storeBytes_above (by rw [u32be_length, L33]; norm_num) (by norm_num)]
    rw [hH33, u32At_storeBytes_above (by rw [u32be_length, L32]; norm_num) (by norm_num)]
    rw [hH32, u32At_storeBytes_above (by rw [asciiBytes_length, L31]; norm_num) (by norm_num)]
    rw [hH31, u32At_storeBytes_above (by rw [u32be_length, L30]; norm_num) (by norm_num)]
    rw [hH30, u32At_storeBytes_above (by rw [u32be_length, L29]; norm_num) (by norm_num)]
    rw [hH29, u32At_storeBytes_above (by rw [u32be_length, L28]; norm_num) (by norm_num)]
    rw [hH28, u32At_storeBytes_above (by rw [u16be_length, L27]; norm_num) (by norm_num)]
    rw [hH27, u32At_storeBytes_above (by rw [u16be_length, L26]; norm_num) (by norm_num)]
    rw [hH26, u32At_storeBytes_above (by simp [L25]) (by norm_num)]
    rw [hH25, u32At_storeBytes_above (by simp [L24]) (by norm_num)]
    rw [hH24, u32At_storeBytes_above (by simp [L23]) (by norm_num)]
    rw [hH23, u32At_storeBytes_above (by simp [L22]) (by norm_num)]
    rw [hH22, u32At_storeBytes_above (by simp [L21, f32be_zero, f32be_one]) (by norm_num)]
    rw [hH21, u32At_storeBytes_above (by rw [u32be_length, L20]; norm_num) (by norm_num)]
    rw [hH20, u32At_storeBytes_above (by simp [L19, f32be_zero, f32be_one]) (by norm_num)]
    rw [hH19, u32At_storeBytes_above (by rw [u32be_length, L18]; norm_num) (by norm_num)]
    rw [hH18, u32At_storeBytes_above (by rw [u32be_length, L17]; norm_num) (by norm_num)]
    rw [hH17, u32At_storeBytes_u32be hh (by rw [L16]; norm_num)]



/-- `struct.pack(">I", v)` raises when the value does not fit in 32 bits. -/
theorem packU32_error {buf : List ℕ} {off v : ℕ} (hv : ¬ v < 2^32) :
    packU32 buf off v = .error "struct.error: argument out of range for I format" := by
  rw [packU32, if_neg hv]

/-- `_pack_rgb10` emits four bytes per consumed pixel triple. -/
theorem packPixels_length : ∀ l : List ℚ,
    (packPixels l).length = 4 * (l.length / 3)
  | [] => rfl
  | [x] => by rw [show packPixels [x] = [] from rfl]; simp
  | [x, y] => by rw [show packPixels [x, y] = [] from rfl]; simp
  | r :: g :: b :: rest => by
    simp only [packPixels, List.length_append, u32be_length,
      packPixels_length rest, List.length_cons]
    omega

theorem getD_append_lt {l l' : List ℕ} {i : ℕ} (h : i < l.length) :
    (l ++ l').getD i 0 = l.getD i 0 := by
  rw [List.getD_eq_getElem?_getD, List.getD_eq_getElem?_getD,
    List.getElem?_append_left h]

theorem u32At_append_lt {l l' : List ℕ} {off : ℕ} (h : off + 4 ≤ l.length) :
    u32At (l ++ l') off = u32At l off := by
  rw [u32At, u32At, getD_append_lt (by omega), getD_append_lt (by omega),
    getD_append_lt (by omega), getD_append_lt (by omega)]

/-- Reduction of the writer on a well-formed `[h, w, 3]` shape. -/
theorem write_dpx10_eq (h w : ℕ) (data : List ℚ) (pn cr ts : String) :
    write_dpx10_logc_awg ⟨[h, w, 3], data⟩ pn cr ts =
      andThen
        (build_header w h pn (HEADER_SIZE + (packPixels data).length)
          HEADER_SIZE cr "stopmo-xcode" "ARRI LogC3 EI800 + AWG" ts)
        (fun header => Except.ok (header ++ packPixels data)) := by
  show andThen
      (build_header w h pn (HEADER_SIZE + (packPixels data).length)
        HEADER_SIZE cr "stopmo-xcode" "ARRI LogC3 EI800 + AWG" ts)
      (fun header => Except.ok (header ++ packPixels data)) =
    andThen
      (build_header w h pn (HEADER_SIZE + (packPixels data).length)
        HEADER_SIZE cr "stopmo-xcode" "ARRI LogC3 EI800 + AWG" ts)
      (fun header => Except.ok (header ++ packPixels data))
  rfl

/-- Any shape other than `[h, w, 3]` makes the writer raise before writing. -/
theorem write_dpx10_bad_shape (shape : List ℕ) (data : List ℚ)
    (pn cr ts : String) (hs : ∀ a b, shape ≠ [a, b, 3]) :
    write_dpx10_logc_awg ⟨shape, data⟩ pn cr ts =
      .error "expected HxWx3 RGB image" := by
  match shape, hs with
  | [], _ => rfl
  | [a], _ => rfl
  | [a, b], _ => rfl
  | a :: b :: c :: d :: rest, _ => rfl
  | [a, b, c], hs =>
    have hc : c ≠ 3 := fun hC => hs a b (by rw [hC])
    show (if c ≠ 3 then Except.error "expected HxWx3 RGB image" else _) = _
    rw [if_pos hc]

/-- If the file-size value overflows a u32 (and the data offset does not),
the header build stops with the `struct` range error at offset 16. -/
theorem build_header_u32_overflow {width height : ℕ} {filename : String}
    {file_size data_offset : ℕ} {creator project description ts : String}
    (hdo : data_offset < 2^32) (hfs : ¬ file_size < 2^32) :
    build_header width height filename file_size data_offset creator
      project description ts =
      .error "struct.error: argument out of range for I format" := by
  rw [build_header]
  rw [packBytes_ok (by rw [List.length_replicate]; norm_num [HEADER_SIZE]), andThen_ok]
  set H0 := storeBytes (List.replicate HEADER_SIZE 0) 0 [83, 68, 80, 88] with hH0
  have L0 : H0.length = 2048 := by
    rw [hH0, storeBytes_length (by rw [List.length_replicate]; norm_num [HEADER_SIZE])]
    rw [List.length_replicate]; rfl
  rw [packU32_ok hdo (by rw [L0]; norm_num), andThen_ok]
  set H1 := storeBytes H0 4 (u32be data_offset) with hH1
  have L1 : H1.length = 2048 := by
    rw [hH1, storeBytes_length (by rw [u32be_length, L0]; norm_num), L0]
  rw [packBytes_ok (by rw [asciiBytes_length, L1]; norm_num), andThen_ok]
  rw [packU32_error hfs, andThen_error]

/-- C6: the universally quantified claim fails: for a 32768x32768x3 image the
total file size is 2048 + 4*32768*32768 >= 2^32, so `struct.pack_into(">I")`
raises on the file-size field and no well-formed DPX bytes are produced. -/
theorem C6_dpx_writer_counterexample :
    write_dpx10_logc_awg
      ⟨[32768, 32768, 3], List.replicate (32768 * 32768 * 3) 0⟩
      "frame.dpx" "stopmo" "ts" =
      .error "struct.error: argument out of range for I format" := by
  have hpl : (packPixels (List.replicate (32768 * 32768 * 3) (0:ℚ))).length
      = 4294967296 := by
    rw [packPixels_length, List.length_replicate]
  have hOf : ¬ HEADER_SIZE +
      (packPixels (List.replicate (32768 * 32768 * 3) (0:ℚ))).length < 2^32 := by
    rw [hpl]; norm_num [HEADER_SIZE]
  rw [write_dpx10_eq,
    build_header_u32_overflow (by norm_num [HEADER_SIZE]) hOf, andThen_error]

/-- C6 (amended): for an HxWx3 image whose dimensions and total file size fit
in a u32, the writer succeeds and the bytes carry the "SDPX" magic, width W at
offset 772, height H at offset 776, and the true byte count (2048-byte header
plus 4 bytes per pixel) in the file-size field at offset 16; for any shape that
is not HxWx3 the writer raises and writes nothing. -/
theorem C6_dpx_writer_amended (h w : ℕ) (data : List ℚ) (pn cr ts : String)
    (hlen : data.length = h * w * 3) (hw : w < 2^32) (hh : h < 2^32)
    (hfs : HEADER_SIZE + 4 * (h * w) < 2^32) :
    (∃ bytes, write_dpx10_logc_awg ⟨[h, w, 3], data⟩ pn cr ts = .ok bytes ∧
      bytes.length = 2048 + 4 * (h * w) ∧
      bytes.getD 0 0 = 83 ∧ bytes.getD 1 0 = 68 ∧ bytes.getD 2 0 = 80 ∧
      bytes.getD 3 0 = 88 ∧
      u32At bytes 772 = w ∧ u32At bytes 776 = h ∧
      u32At bytes 16 = bytes.length) ∧
    ∀ shape data2, (∀ a b, shape ≠ [a, b, 3]) →
      write_dpx10_logc_awg ⟨shape, data2⟩ pn cr ts =
        .error "expected HxWx3 RGB image" := by
  have hpl : (packPixels data).length = 4 * (h * w) := by
    rw [packPixels_length, hlen]
    omega
  obtain ⟨hdr, hok, hL, hm0, hm1, hm2, hm3, hf16, hf772, hf776⟩ :=
    build_header_ok w h pn (HEADER_SIZE + (packPixels data).length) HEADER_SIZE
      cr "stopmo-xcode" "ARRI LogC3 EI800 + AWG" ts hw hh
      (by rw [hpl]; exact hfs) (by norm_num [HEADER_SIZE])
  constructor
  · refine ⟨hdr ++ packPixels data, ?_, ?_, ?_, ?_, ?_, ?_, ?_, ?_, ?_⟩
    · rw [write_dpx10_eq, hok, andThen_ok]
    · rw [List.length_append, hL, hpl]
    · rw [getD_append_lt (by rw [hL]; norm_num)]; exact hm0
    · rw [getD_append_lt (by rw [hL]; norm_num)]; exact hm1
    · rw [getD_append_lt (by rw [hL]; norm_num)]; exact hm2
    · rw [getD_append_lt (by rw [hL]; norm_num)]; exact hm3
    · rw [u32At_append_lt (by rw [hL]; norm_num)]; exact hf772
    · rw [u32At_append_lt (by rw [hL]; norm_num)]; exact hf776
    · rw [u32At_append_lt (by rw [hL]; norm_num), hf16, List.length_append, hL,
        hpl]
      norm_num [HEADER_SIZE]
  · exact fun shape data2 hs => write_dpx10_bad_shape shape data2 pn cr ts hs

theorem C6_dpx_writer_amended_witness :
    (List.replicate 18 (0:ℚ)).length = 2 * 3 * 3 ∧
    ((3:ℕ) < 2^32 ∧ (2:ℕ) < 2^32 ∧ HEADER_SIZE + 4 * (2 * 3) < 2^32) ∧
    ((∃ bytes, write_dpx10_logc_awg ⟨[2, 3, 3], List.replicate 18 (0:ℚ)⟩
        "f.dpx" "cam" "ts" = .ok bytes ∧
      bytes.length = 2048 + 4 * (2 * 3) ∧
      bytes.getD 0 0 = 83 ∧ bytes.getD 1 0 = 68 ∧ bytes.getD 2 0 = 80 ∧
      bytes.getD 3 0 = 88 ∧
      u32At bytes 772 = 3 ∧ u32At bytes 776 = 2 ∧
      u32At bytes 16 = bytes.length) ∧
     ∀ shape data2, (∀ a b, shape ≠ [a, b, 3]) →
       write_dpx10_logc_awg ⟨shape, data2⟩ "f.dpx" "cam" "ts" =
         .error "expected HxWx3 RGB image") :=
  ⟨by rw [List.length_replicate], ⟨by norm_num, by norm_num, by norm_num [HEADER_SIZE]⟩,
    C6_dpx_writer_amended 2 3 (List.replicate 18 (0:ℚ)) "f.dpx" "cam" "ts"
      (by rw [List.length_replicate]) (by norm_num) (by norm_num)
      (by norm_num [HEADER_SIZE])⟩


end StopmoXcode
